/-
Verification of the Niru-Predictpath-AI reasoning core against its
natural-language specification.  The Python sources are shallowly embedded:
pure computations become Lean functions over ℚ / ℝ / ℕ, database state
becomes explicit record passing, and the SQLAlchemy commit discipline is
modelled by an explicit committed/working state pair.

Contents:
  * numeric helpers shared by several components (Python-style rounding),
  * Tool6 governance core: learning engine (learning.py) and trust ledger
    (ledger.py) with a byte-accurate SHA-256,
  * Tool2 session builder (ingest.py) and path analyzer (engine.py),
  * Tool3 trajectory forecaster (predictor.py),
  * Tool4 decision engine (engine.py, knowledge_base.py),
followed by the theorems for the individual claims.
-/
import Mathlib

namespace Predictpath

/-! ## Python-style numeric helpers

Python `round(x, n)` rounds half to even ("banker's rounding").  We model it
exactly on ℚ: `roundHalfEven` rounds a rational to the nearest integer,
resolving ties towards the even integer, and `pyRound q n` rounds `q` to `n`
decimal digits. -/

/-- Round a rational to the nearest integer, ties to the even integer. -/
def roundHalfEven (q : ℚ) : ℤ :=
  if Int.fract q = 1/2 then
    (if Even (Int.floor q) then Int.floor q else Int.floor q + 1)
  else round q

/-- Python `round(q, digits)`: round half to even at `digits` decimal places. -/
def pyRound (q : ℚ) (digits : ℕ) : ℚ :=
  (roundHalfEven (q * 10 ^ digits) : ℚ) / 10 ^ digits

/-- Python `min` on two rationals (kernel-reducible). -/
def qmin (a b : ℚ) : ℚ := if a ≤ b then a else b

/-- Python `max` on two rationals (kernel-reducible). -/
def qmax (a b : ℚ) : ℚ := if b ≤ a then a else b

/-- Python `abs` on a rational (kernel-reducible). -/
def qabs (a : ℚ) : ℚ := if a < 0 then -a else a

/-- Python `max(lo, min(hi, x))` clamping pattern used throughout learning.py. -/
def clamp (lo hi x : ℚ) : ℚ := qmax lo (qmin hi x)

/-! ## Tool6 data model (`database.py` rows as plain records)

The governance store keeps three tables: `model_configuration`,
`trust_ledger` and `drift_samples`.  The ORM classes live in
`Tool6/src/database.py`; their columns are read off from every use site in
`learning.py` / `ledger.py`.  Timestamps are modelled as natural numbers
(an abstract monotone clock); their string form enters the ledger hash. -/

/-- One `model_configuration` row. -/
structure ModelConfiguration where
  version_id : String
  is_active : Bool
  containment_threshold : ℚ
  disruptive_threshold : ℚ
  trust_momentum : ℚ
  success_streak : ℕ
  failure_streak : ℕ
  risk_weights : List (String × ℚ)
  deriving DecidableEq, Repr

/-- One `drift_samples` row. -/
structure DriftSample where
  timestamp : ℕ
  metric_name : String
  metric_value : ℚ
  alert_triggered : Bool
  deriving DecidableEq, Repr

/-- Genesis configuration created by `LearningEngine.get_active_config` when
no active row exists. -/
def genesisConfig : ModelConfiguration :=
  { version_id := "v1.0-genesis"
    is_active := true
    containment_threshold := 6/10
    disruptive_threshold := 85/100
    trust_momentum := 0
    success_streak := 0
    failure_streak := 0
    risk_weights := [("T1021", 8/10), ("T1046", 4/10)] }

/-! ## Tool6 learning engine (`learning.py`) -/

/-- One entry of an old-format `report["executions"]` list, holding exactly
the keys `process_execution_feedback` reads.  A missing `final_status` key
(Python `ex.get("final_status")` returning `None`) is `none`; the other
reads supply defaults at the use site, which we bake into the record. -/
structure ExecutionAction where
  final_status : Option String
  action_type : Option String
  domain : String
  urgency : String
  requires_approval : Bool
  is_kev : Bool
  deriving DecidableEq, Repr

/-- One entry of a new-format `report["actions_included"]` list
(Tool 5 script-generation format). -/
structure ScriptGenAction where
  action_type : String
  domain : String
  urgency : String
  requires_approval : Bool
  is_kev : Bool
  deriving DecidableEq, Repr

/-- An execution report as consumed by `process_execution_feedback`.
`actions_included = some _` corresponds to the key being present. -/
structure ExecutionReport where
  script_filename : Option String
  actions_included : Option (List ScriptGenAction)
  executions : List ExecutionAction
  deriving DecidableEq, Repr

/-- `LearningEngine._parse_actions`: the new script-gen format maps every
included action to a success record; otherwise the old `executions` list is
returned as is. -/
def parseActions (report : ExecutionReport) : List ExecutionAction :=
  match report.actions_included with
  | some acts =>
      acts.map fun a =>
        { final_status := some "success"
          action_type := some a.action_type
          domain := a.domain
          urgency := a.urgency
          requires_approval := a.requires_approval
          is_kev := a.is_kev }
  | none => report.executions

/-- Counters accumulated by the action-classification loop of
`process_execution_feedback`. -/
structure FeedbackCounts where
  rollbacks : ℕ
  successes : ℕ
  kev_successes : ℕ
  kev_failures : ℕ
  high_urgency_count : ℕ
  approval_required_count : ℕ
  deriving DecidableEq, Repr

/-- The classification loop over parsed actions. -/
def countActions (actions : List ExecutionAction) : FeedbackCounts :=
  actions.foldl
    (fun c ex =>
      let c := { c with
        approval_required_count :=
          c.approval_required_count + (if ex.requires_approval then 1 else 0)
        high_urgency_count :=
          c.high_urgency_count +
            (if ex.urgency = "Critical" ∨ ex.urgency = "High" then 1 else 0) }
      if ex.final_status = some "rolled_back" ∨ ex.final_status = some "failed" then
        { c with rollbacks := c.rollbacks + 1
                 kev_failures := c.kev_failures + (if ex.is_kev then 1 else 0) }
      else if ex.final_status = some "success" then
        { c with successes := c.successes + 1
                 kev_successes := c.kev_successes + (if ex.is_kev then 1 else 0) }
      else c)
    { rollbacks := 0, successes := 0, kev_successes := 0, kev_failures := 0
      high_urgency_count := 0, approval_required_count := 0 }

/-- Outcome of the pure part of `process_execution_feedback`: the new
configuration row (added with `is_active = 0`; the activation swap happens
at commit time) and the three drift samples recorded for trend analysis. -/
structure FeedbackResult where
  new_config : ModelConfiguration
  momentum_sample : DriftSample
  containment_sample : DriftSample
  disruptive_sample : DriftSample
  deriving DecidableEq, Repr

/-- Pure computation of `LearningEngine.process_execution_feedback`
(learning.py lines 73–190): classify actions, derive the raw trust delta,
decay and clamp the momentum, move both thresholds against it, and build
the new configuration row plus the three drift samples.  The fresh version
id (`uuid4` in the source) and the clock are passed in. -/
def processFeedbackPure (currentConfig : ModelConfiguration)
    (report : ExecutionReport) (newVersion : String) (now : ℕ) :
    FeedbackResult :=
  let actions := parseActions report
  let isScriptGen := report.script_filename.isSome
  let c := countActions actions
  let successes :=
    if isScriptGen ∧ c.successes = 0 then actions.length else c.successes
  let alpha : ℚ := 1/10
  let beta : ℚ := 1/100
  let rawDelta : ℚ :=
    if 0 < c.rollbacks then
      -(c.rollbacks * alpha * (1 + 1 * c.kev_failures))
    else if 0 < successes then
      successes * beta *
        ((1 + (1/2) * c.kev_successes) +
          (if 0 < c.high_urgency_count then (1/10) * c.high_urgency_count else 0))
    else 0
  let newSuccessStreak :=
    if 0 < c.rollbacks then 0
    else if 0 < successes then currentConfig.success_streak + 1
    else currentConfig.success_streak
  let newFailureStreak :=
    if 0 < c.rollbacks then currentConfig.failure_streak + 1
    else if 0 < successes then 0
    else currentConfig.failure_streak
  let newMomentum := clamp (-(35/100)) (35/100)
    (currentConfig.trust_momentum * (85/100) + rawDelta)
  let newContain := clamp (40/100) (95/100)
    (currentConfig.containment_threshold - newMomentum)
  let newDisrupt := clamp (60/100) 1
    (currentConfig.disruptive_threshold - newMomentum * (1/2))
  let momentumAlert : Bool := decide ((25/100 : ℚ) ≤ qabs newMomentum)
  let thresholdAlert : Bool :=
    decide ((90/100 : ℚ) ≤ newContain) || decide (newContain ≤ 45/100)
  { new_config :=
      { version_id := newVersion
        is_active := false
        containment_threshold := pyRound newContain 4
        disruptive_threshold := pyRound newDisrupt 4
        trust_momentum := newMomentum
        success_streak := newSuccessStreak
        failure_streak := newFailureStreak
        risk_weights := currentConfig.risk_weights }
    momentum_sample :=
      { timestamp := now, metric_name := "trust_momentum"
        metric_value := newMomentum, alert_triggered := momentumAlert }
    containment_sample :=
      { timestamp := now, metric_name := "containment_threshold"
        metric_value := newContain, alert_triggered := thresholdAlert }
    disruptive_sample :=
      { timestamp := now, metric_name := "disruptive_threshold"
        metric_value := newDisrupt, alert_triggered := false } }

end Predictpath

namespace Predictpath

/-! ## Canonical JSON (`json.dumps(payload, sort_keys=True)`)

Ledger payloads are Python dicts serialised with lexicographically sorted
keys and the default separators `", "` and `": "`.  `Jval` models the JSON
values that occur in payloads. -/

/-- A JSON value as passed to `json.dumps`. -/
inductive Jval where
  | str (s : String)
  | int (n : ℤ)
  | bool (b : Bool)
  | list (xs : List Jval)
  | obj (kvs : List (String × Jval))

/-- The sixteen lowercase hexadecimal digit characters, as Python's `"%02x"`
and `hexdigest()` render them. -/
def hexDigits : List Char := "0123456789abcdef".toList

/-- JSON string escaping as performed by `json.dumps` (all payload strings in
this development are ASCII, so `ensure_ascii` re-encoding never fires). -/
def jescape (s : String) : String :=
  s.data.foldr
    (fun c acc =>
      (if c = '"' then "\\\""
       else if c = '\\' then "\\\\"
       else if c = '\n' then "\\n"
       else if c = '\r' then "\\r"
       else if c = '\t' then "\\t"
       else if c.toNat < 32 then
         "\\u00" ++ String.mk [
           hexDigits.getD (c.toNat / 16) '0',
           hexDigits.getD (c.toNat % 16) '0']
       else String.mk [c]) ++ acc)
    ""

/-- Python string comparison: lexicographic on code points. -/
def strLeBool : List Char → List Char → Bool
  | [], _ => true
  | _ :: _, [] => false
  | a :: as, b :: bs =>
      if a.toNat < b.toNat then true
      else if b.toNat < a.toNat then false
      else strLeBool as bs

/-- Insertion sort of rendered key/value pairs by key (Python `sort_keys`;
dict keys are unique, so tie order is irrelevant). -/
def insertByKey (p : String × String) : List (String × String) → List (String × String)
  | [] => [p]
  | q :: qs => if strLeBool p.1.data q.1.data then p :: q :: qs else q :: insertByKey p qs

def sortByKey (l : List (String × String)) : List (String × String) :=
  l.foldr insertByKey []

def commaJoin (l : List String) : String :=
  match l with
  | [] => ""
  | x :: xs => xs.foldl (fun acc y => acc ++ ", " ++ y) x

mutual

/-- `json.dumps(v, sort_keys=True)` with the default separators. -/
def jdump : Jval → String
  | .str s => "\"" ++ jescape s ++ "\""
  | .int n => toString n
  | .bool b => if b then "true" else "false"
  | .list xs => "[" ++ commaJoin (jdumpItems xs) ++ "]"
  | .obj kvs =>
      "\x7b" ++
        commaJoin ((sortByKey (jdumpPairs kvs)).map
          (fun kv => "\"" ++ jescape kv.1 ++ "\": " ++ kv.2)) ++ "\x7d"

def jdumpItems : List Jval → List String
  | [] => []
  | x :: xs => jdump x :: jdumpItems xs

def jdumpPairs : List (String × Jval) → List (String × String)
  | [] => []
  | kv :: xs => (kv.1, jdump kv.2) :: jdumpPairs xs

end

/-! ## SHA-256 (`hashlib.sha256`, byte-accurate)

The ledger hashes UTF-8 bytes of the concatenated entry fields.  All 32-bit
words are naturals reduced mod 2^32. -/

def mask32 : ℕ := 4294967296

def rotr32 (x n : ℕ) : ℕ := ((x >>> n) ||| (x <<< (32 - n))) % mask32

def ssig0 (x : ℕ) : ℕ := rotr32 x 7 ^^^ rotr32 x 18 ^^^ (x >>> 3)

def ssig1 (x : ℕ) : ℕ := rotr32 x 17 ^^^ rotr32 x 19 ^^^ (x >>> 10)

def bsig0 (x : ℕ) : ℕ := rotr32 x 2 ^^^ rotr32 x 13 ^^^ rotr32 x 22

def bsig1 (x : ℕ) : ℕ := rotr32 x 6 ^^^ rotr32 x 11 ^^^ rotr32 x 25

def chf (x y z : ℕ) : ℕ := (x &&& y) ^^^ ((x ^^^ 4294967295) &&& z)

def majf (x y z : ℕ) : ℕ := (x &&& y) ^^^ (x &&& z) ^^^ (y &&& z)

def shaK : List ℕ :=
  [1116352408, 1899447441, 3049323471, 3921009573,
   961987163, 1508970993, 2453635748, 2870763221,
   3624381080, 310598401, 607225278, 1426881987,
   1925078388, 2162078206, 2614888103, 3248222580,
   3835390401, 4022224774, 264347078, 604807628,
   770255983, 1249150122, 1555081692, 1996064986,
   2554220882, 2821834349, 2952996808, 3210313671,
   3336571891, 3584528711, 113926993, 338241895,
   666307205, 773529912, 1294757372, 1396182291,
   1695183700, 1986661051, 2177026350, 2456956037,
   2730485921, 2820302411, 3259730800, 3345764771,
   3516065817, 3600352804, 4094571909, 275423344,
   430227734, 506948616, 659060556, 883997877,
   958139571, 1322822218, 1537002063, 1747873779,
   1955562222, 2024104815, 2227730452, 2361852424,
   2428436474, 2756734187, 3204031479, 3329325298]

def shaH0 : List ℕ :=
  [1779033703, 3144134277, 1013904242, 2773480762,
   1359893119, 2600822924, 528734635, 1541459225]

def word32 (b0 b1 b2 b3 : ℕ) : ℕ := (b0 <<< 24) ||| (b1 <<< 16) ||| (b2 <<< 8) ||| b3

def words16 : List ℕ → List ℕ
  | b0 :: b1 :: b2 :: b3 :: rest => word32 b0 b1 b2 b3 :: words16 rest
  | _ => []

/-- Message-schedule extension, carried with the newest word at the head. -/
def extendWords : ℕ → List ℕ → List ℕ
  | 0, ws => ws
  | n+1, ws =>
      let w2 := ws.getD 1 0
      let w7 := ws.getD 6 0
      let w15 := ws.getD 14 0
      let w16 := ws.getD 15 0
      extendWords n (((ssig1 w2 + w7 + ssig0 w15 + w16) % mask32) :: ws)

def schedule (block : List ℕ) : List ℕ := (extendWords 48 (words16 block).reverse).reverse

def roundStep (st : List ℕ) (kw : ℕ × ℕ) : List ℕ :=
  match st with
  | [a, b, c, d, e, f, g, h] =>
      let t1 := (h + bsig1 e + chf e f g + kw.1 + kw.2) % mask32
      let t2 := (bsig0 a + majf a b c) % mask32
      [(t1 + t2) % mask32, a, b, c, (d + t1) % mask32, e, f, g]
  | other => other

def compress (h : List ℕ) (block : List ℕ) : List ℕ :=
  let ws := schedule block
  let st := (shaK.zip ws).foldl roundStep h
  (h.zip st).map (fun p => (p.1 + p.2) % mask32)

def padBytes (ms : List ℕ) : List ℕ :=
  let L := ms.length
  let k := (119 - (L % 64)) % 64
  let lenBits := 8 * L
  ms ++ [128] ++ List.replicate k 0 ++
    [(lenBits >>> 56) % 256, (lenBits >>> 48) % 256, (lenBits >>> 40) % 256, (lenBits >>> 32) % 256,
     (lenBits >>> 24) % 256, (lenBits >>> 16) % 256, (lenBits >>> 8) % 256, lenBits % 256]

def chunks64 (l : List ℕ) : List (List ℕ) :=
  if h : l = [] then [] else
    l.take 64 :: chunks64 (l.drop 64)
termination_by l.length
decreasing_by
  simp only [List.length_drop]
  have hlen : l.length ≠ 0 := fun hn => h (List.eq_nil_of_length_eq_zero hn)
  omega

def sha256Words (ms : List ℕ) : List ℕ := (chunks64 (padBytes ms)).foldl compress shaH0

def nibbleChar (n : ℕ) : Char :=
  hexDigits.getD n '0'

def byteHex (b : ℕ) : List Char := [nibbleChar (b / 16), nibbleChar (b % 16)]

def wordHex (w : ℕ) : List Char :=
  byteHex ((w >>> 24) % 256) ++ byteHex ((w >>> 16) % 256) ++
    byteHex ((w >>> 8) % 256) ++ byteHex (w % 256)

/-- UTF-8 encoding of one character (`str.encode()`). -/
def utf8Bytes (c : Char) : List ℕ :=
  let n := c.toNat
  if n < 128 then [n]
  else if n < 2048 then [192 ||| (n >>> 6), 128 ||| (n &&& 63)]
  else if n < 65536 then
    [224 ||| (n >>> 12), 128 ||| ((n >>> 6) &&& 63), 128 ||| (n &&& 63)]
  else
    [240 ||| (n >>> 18), 128 ||| ((n >>> 12) &&& 63), 128 ||| ((n >>> 6) &&& 63), 128 ||| (n &&& 63)]

def strBytes (s : String) : List ℕ := s.data.foldr (fun c acc => utf8Bytes c ++ acc) []

/-- `hashlib.sha256(s.encode()).hexdigest()`. -/
def sha256Hex (s : String) : String :=
  String.mk ((sha256Words (strBytes s)).foldr (fun w acc => wordHex w ++ acc) [])

/-! ## Tool6 trust ledger (`ledger.py`)

A `trust_ledger` row.  `timestamp` is the abstract clock value; its
rendered form `isoTimestamp` stands for `datetime.isoformat()` and is what
enters the hash (both at append and at re-verification, which round-trips
through the same rendering). -/

structure TrustLedgerEntry where
  hash_id : String
  previous_hash : String
  timestamp : ℕ
  event_type : String
  payload : Jval
  actor : String

/-- Rendered timestamp entering the hash preimage. -/
def isoTimestamp (t : ℕ) : String := toString t

namespace TrustLedgerSystem

/-- The 64-zero genesis hash. -/
def GENESIS : String := String.mk (List.replicate 64 '0')

/-- `TrustLedgerSystem._compute_hash`. -/
def _compute_hash (prev_hash ts_str event_type : String) (payload : Jval) (actor : String) : String :=
  sha256Hex (prev_hash ++ ts_str ++ event_type ++ jdump payload ++ actor)

/-- Stable insertion into a timestamp-ascending list. -/
def insertByTs (e : TrustLedgerEntry) : List TrustLedgerEntry → List TrustLedgerEntry
  | [] => [e]
  | x :: xs => if e.timestamp < x.timestamp then e :: x :: xs else x :: insertByTs e xs

/-- The `ORDER BY timestamp ASC` view of the stored rows. -/
def sortByTs (db : List TrustLedgerEntry) : List TrustLedgerEntry :=
  db.foldr insertByTs []

/-- `TrustLedgerSystem._get_last_hash`: hash of the newest entry (the first
row of the `ORDER BY timestamp DESC` query), or the genesis hash. -/
def _get_last_hash (db : List TrustLedgerEntry) : String :=
  match (sortByTs db).getLast? with
  | none => GENESIS
  | some e => e.hash_id

/-- `TrustLedgerSystem.log_event`: append one entry, linking it to the last
stored hash.  The clock value `now` stands for `datetime.now(timezone.utc)`. -/
def log_event (db : List TrustLedgerEntry) (now : ℕ) (event_type : String)
    (payload : Jval) (actor : String) : List TrustLedgerEntry :=
  let prev_hash := _get_last_hash db
  let ts_str := isoTimestamp now
  let new_hash := _compute_hash prev_hash ts_str event_type payload actor
  db ++ [{ hash_id := new_hash, previous_hash := prev_hash, timestamp := now
           event_type := event_type, payload := payload, actor := actor }]

/-- The verification walk of `verify_ledger_integrity`: check the chain link
and the recomputed hash of every entry in ascending timestamp order. -/
def verifyFrom (prev : String) : List TrustLedgerEntry → Bool
  | [] => true
  | e :: rest =>
      if e.previous_hash ≠ prev then false
      else if e.hash_id ≠ _compute_hash prev (isoTimestamp e.timestamp) e.event_type e.payload e.actor then false
      else verifyFrom e.hash_id rest

/-- `TrustLedgerSystem.verify_ledger_integrity`. -/
def verify_ledger_integrity (db : List TrustLedgerEntry) : Bool :=
  verifyFrom GENESIS (sortByTs db)

end TrustLedgerSystem

/-! ## Ledger chains built solely by appends (claim C1 apparatus) -/

/-- One `log_event` request: the clock value observed at append time plus
the caller-supplied arguments. -/
structure LedgerRequest where
  timestamp : ℕ
  event_type : String
  payload : Jval
  actor : String

/-- Replay a list of `log_event` calls against a starting table. -/
def buildChainFrom (db : List TrustLedgerEntry) (rs : List LedgerRequest) :
    List TrustLedgerEntry :=
  rs.foldl
    (fun d r => TrustLedgerSystem.log_event d r.timestamp r.event_type r.payload r.actor)
    db

/-- A ledger produced solely by `log_event` appends on an empty table. -/
def buildChain (rs : List LedgerRequest) : List TrustLedgerEntry :=
  buildChainFrom [] rs

/-- The hash-chain invariant of the specification: every entry links to the
running hash (genesis for the first) and carries the SHA-256 of the
concatenated hashed fields. -/
def ChainedFrom (prev : String) : List TrustLedgerEntry → Prop
  | [] => True
  | e :: rest =>
      e.previous_hash = prev ∧
      e.hash_id = TrustLedgerSystem._compute_hash prev (isoTimestamp e.timestamp)
        e.event_type e.payload e.actor ∧
      ChainedFrom e.hash_id rest

/-- Hash of the newest entry of an ascending chain, `p` for the empty one. -/
def lastHashFrom (p : String) (db : List TrustLedgerEntry) : String :=
  match db.getLast? with
  | none => p
  | some e => e.hash_id

/-- Overwrite the stored row at position `i` (tampering with storage). -/
def replaceAt : List TrustLedgerEntry → ℕ → TrustLedgerEntry → List TrustLedgerEntry
  | [], _, _ => []
  | _ :: xs, 0, e => e :: xs
  | x :: xs, i+1, e => x :: replaceAt xs i e

/-- Strictly ascending check on a timestamp list (adjacent comparison);
the executable form of a strictly monotone append clock. -/
def ascTs : List ℕ → Bool
  | [] => true
  | [_] => true
  | a :: b :: rest => decide (a < b) && ascTs (b :: rest)

/-- Fallback entry used to read a row out of a concrete chain. -/
def blankEntry : TrustLedgerEntry :=
  { hash_id := "", previous_hash := "", timestamp := 0, event_type := ""
    payload := .obj [], actor := "" }

/-! ## Governance persistence model (`process_execution_feedback` end to end)

SQLAlchemy semantics as used by Tool6: `session.add` stages a row in the
working state, `session.commit` makes the working state durable, and a
failed commit raises after rolling the session back to the last committed
state.  The exception aborts `process_execution_feedback`, whose body has
no try/except.  `commitOk k` says whether the k-th commit issued during the
call succeeds. -/

/-- The three governance tables. -/
structure GovStore where
  configs : List ModelConfiguration
  ledger : List TrustLedgerEntry
  drift : List DriftSample

/-- An open database session: durable state plus staged working state. -/
structure DbSession where
  committed : GovStore
  working : GovStore

/-- Dedup preserving first occurrence (stands for Python `set` insertion;
the iteration order of a Python `str` set is unspecified, and nothing
verified below depends on this order). -/
def dedupFirst (l : List String) : List String :=
  l.foldl (fun acc s => if s ∈ acc then acc else acc ++ [s]) []

/-- `domains_covered` collected by the classification loop (only non-empty
domains are added). -/
def domainsCovered (actions : List ExecutionAction) : List String :=
  dedupFirst ((actions.filter (fun a => a.domain ≠ "")).map (·.domain))

/-- Zero-pad a natural to four digits. -/
def pad4 (n : ℕ) : String :=
  let s := toString n
  String.mk (List.replicate (4 - s.length) '0') ++ s

/-- Python `f"{q:.4f}"` on the exact rational value. -/
def formatFixed4 (q : ℚ) : String :=
  let r := roundHalfEven (q * 10000)
  let core := fun (n : ℕ) => toString (n / 10000) ++ "." ++ pad4 (n % 10000)
  if r < 0 ∨ (q < 0 ∧ r = 0) then "-" ++ core r.natAbs else core r.natAbs

/-- The human-readable narrative of `process_execution_feedback`
(learning.py lines 151–170). -/
def humanReason (isScriptGen : Bool) (actionCount : ℕ) (domains : List String)
    (c : FeedbackCounts) (successes : ℕ) : String :=
  if isScriptGen then
    let base := "Script generated for " ++ toString actionCount ++ " action(s) across " ++
      (if domains ≠ [] then commaJoin domains else "unknown") ++ " domain(s). "
    let base := if 0 < c.approval_required_count then
      base ++ toString c.approval_required_count ++ " action(s) flagged for manual approval. "
      else base
    let base := if 0 < c.high_urgency_count then
      base ++ toString c.high_urgency_count ++ " high/critical urgency threat(s) addressed. "
      else base
    base ++ "Trust posture updated based on script coverage."
  else if 0 < c.rollbacks then
    "Penalty: " ++ toString c.rollbacks ++ " failure(s). Posture tightened." ++
      (if 0 < c.kev_failures then " (WARNING: KEV-related failure detected)" else "")
  else if 0 < successes then
    "Trust: " ++ toString successes ++ " success(es). Posture relaxed." ++
      (if 0 < c.kev_successes then " (SUCCESS: KEV vulnerability mitigated)" else "")
  else
    "Natural trust momentum decay — no significant events."

/-- The `LEARNING_UPDATE` ledger payload (learning.py lines 192–206). -/
def learningPayload (oldVer newVer : String) (isScriptGen : Bool)
    (actionCount : ℕ) (domains : List String) (c : FeedbackCounts)
    (successes : ℕ) (newMomentum : ℚ) : Jval :=
  .obj
    [ ("old_ver", .str oldVer)
    , ("new_ver", .str newVer)
    , ("source", .str (if isScriptGen then "script_gen" else "execution"))
    , ("actions_processed", .int actionCount)
    , ("domains_covered", .list (domains.map .str))
    , ("high_urgency_count", .int c.high_urgency_count)
    , ("approval_required", .int c.approval_required_count)
    , ("kev_context", .obj [("successes", .int c.kev_successes), ("failures", .int c.kev_failures)])
    , ("reason", .str (humanReason isScriptGen actionCount domains c successes ++
        " (Momentum=" ++ formatFixed4 newMomentum ++ ")")) ]

/-- `LearningEngine.process_execution_feedback` with its persistence
behaviour.  The call stages the new configuration row and three drift
samples, then calls `TrustLedgerSystem.log_event`, which issues its own
`commit` (ledger.py line 46), and only afterwards deactivates the old
configuration, activates the new one and issues the final `commit`
(learning.py lines 208–210).  `get_active_config` commits once more when it
has to create the genesis row.  A failed commit aborts the call with the
durable state at that point (`Except.error`). -/
def process_execution_feedback (s0 : DbSession) (report : ExecutionReport)
    (newVersion : String) (now : ℕ) (commitOk : ℕ → Bool) :
    Except GovStore GovStore :=
  let activation :=
    match s0.working.configs.find? (·.is_active) with
    | some cfg => Except.ok (s0, cfg, 0)
    | none =>
        let w := { s0.working with configs := s0.working.configs ++ [genesisConfig] }
        if commitOk 0 then Except.ok (({ committed := w, working := w } : DbSession), genesisConfig, 1)
        else Except.error s0.committed
  match activation with
  | .error st => .error st
  | .ok (s1, currentConfig, k) =>
      let actions := parseActions report
      let isScriptGen := report.script_filename.isSome
      let c := countActions actions
      let successes :=
        if isScriptGen ∧ c.successes = 0 then actions.length else c.successes
      let fr := processFeedbackPure currentConfig report newVersion now
      let domains := domainsCovered actions
      let w2 := { s1.working with
        configs := s1.working.configs ++ [fr.new_config]
        drift := s1.working.drift ++
          [fr.momentum_sample, fr.containment_sample, fr.disruptive_sample] }
      let payload := learningPayload currentConfig.version_id newVersion isScriptGen
        actions.length domains c successes fr.new_config.trust_momentum
      let w3 := { w2 with
        ledger := TrustLedgerSystem.log_event w2.ledger now "LEARNING_UPDATE" payload "LearningEngine" }
      if commitOk k then
        let s2 : DbSession := { committed := w3, working := w3 }
        let w4 := { s2.working with
          configs := s2.working.configs.map (fun cc =>
            if cc.version_id = currentConfig.version_id then { cc with is_active := false }
            else if cc.version_id = newVersion then { cc with is_active := true }
            else cc) }
        if commitOk (k + 1) then .ok w4
        else .error s2.committed
      else .error s1.committed

end Predictpath

namespace Predictpath

/-! ## Concrete inputs used by the claim theorems -/

/-- The execution report of spec scenario 5: two rolled-back/failed
actions, one of them KEV-tagged (old execution format, no script file). -/
def reportTwoRollbacksOneKev : ExecutionReport :=
  { script_filename := none
    actions_included := none
    executions :=
      [ { final_status := some "rolled_back", action_type := some "Isolate Host"
          domain := "Network", urgency := "High", requires_approval := true
          is_kev := true }
      , { final_status := some "failed", action_type := some "Disable Account"
          domain := "Identity", urgency := "Low", requires_approval := false
          is_kev := false } ] }

/-- Collapse the `Except` outcome of a feedback call to the durable store
it left behind. -/
def finalStore : Except GovStore GovStore → GovStore
  | .ok st => st
  | .error st => st

/-- A fresh governance store holding only the active genesis configuration. -/
def govStore0 : GovStore := { configs := [genesisConfig], ledger := [], drift := [] }

/-- Scenario-5 feedback run with every commit succeeding. -/
def c4Run : Except GovStore GovStore :=
  process_execution_feedback { committed := govStore0, working := govStore0 }
    reportTwoRollbacksOneKev "v9b3e2d11" 7 (fun _ => true)

/-- Scenario-5 feedback run in which the final commit — the one that swaps
the active configuration, issued after `log_event` already committed — is
the write that fails. -/
def c2Run : Except GovStore GovStore :=
  process_execution_feedback { committed := govStore0, working := govStore0 }
    reportTwoRollbacksOneKev "v2af51c09" 7 (fun k => decide (k = 0))

/-- Three concrete `log_event` requests under a strictly increasing clock. -/
def rs3 : List LedgerRequest :=
  [ { timestamp := 1, event_type := "DECISION_EXECUTED"
      payload := Jval.obj [("session_id", Jval.str "Activity on alice"), ("action", Jval.str "Isolate Host")]
      actor := "System" }
  , { timestamp := 2, event_type := "LEARNING_UPDATE"
      payload := Jval.obj [("new_ver", Jval.str "v2"), ("old_ver", Jval.str "v1.0-genesis")]
      actor := "LearningEngine" }
  , { timestamp := 3, event_type := "DECISION_EXECUTED"
      payload := Jval.obj [("session_id", Jval.str "Activity on bob")]
      actor := "System" } ]

/-- The second of the three stored entries with its `actor` field altered in
storage after appending. -/
def tamperedEntry1 : TrustLedgerEntry :=
  { (buildChain rs3).getD 1 blankEntry with actor := "Mallory" }

/-! ## Tool2 session builder (`ingest.py`)

`load_sessions` starts from an already loaded and schema-aligned frame;
rows carry the columns the function reads.  Timestamps are seconds (the
source compares datetime differences against `pl.duration(minutes=60)`,
i.e. 3600 seconds).  `hasTimestampCol` models whether the mandatory
`timestamp` column exists in the frame. -/

/-- One row of the loaded event frame. -/
structure EventRow where
  event_id : String
  timestamp : ℕ
  user : Option String
  source_host : Option String
  target_host : Option String
  event_type : String
  protocol : Option String
  mitre_technique : Option String
  observed_cve_ids : List String
  observed_cwe_ids : List String
  confidence_score : ℚ
  data_quality_score : ℚ
  raw_source : Option String
  deriving DecidableEq, Repr

/-- The loaded frame. -/
structure DataFrame where
  hasTimestampCol : Bool
  rows : List EventRow
  deriving DecidableEq, Repr

/-- `EnrichedEvent` of Tool2/src/domain.py as constructed by ingestion
(ingest.py lines 127–142): `user`/`source_host` already defaulted through
Python `or "Unknown"`. -/
structure EnrichedEvent where
  event_id : String
  timestamp : ℕ
  user : String
  source_host : String
  target_host : Option String
  event_type : String
  protocol : Option String
  mitre_technique : Option String
  observed_cve_ids : List String
  observed_cwe_ids : List String
  confidence_score : ℚ
  data_quality_score : ℚ
  raw_text : Option String
  deriving DecidableEq, Repr

/-- `Session` of Tool2/src/domain.py. -/
structure Session where
  session_id : String
  user : Option String
  start_time : ℕ
  end_time : ℕ
  events : List EnrichedEvent
  is_high_priority : Bool
  deriving DecidableEq, Repr

/-- The batch-level failure the specification prescribes for a missing
mandatory field.  The embedding makes the outcome type expressive enough to
state it; the source itself returns a session list on every path. -/
inductive IngestError where
  | missingRequiredField (field : String)
  deriving DecidableEq, Repr

/-- Python `value or "Unknown"` on an optional string (empty string is
falsy). -/
def orUnknown (o : Option String) : String :=
  match o with
  | none => "Unknown"
  | some s => if s = "" then "Unknown" else s

/-- `pl.coalesce([user, source_host, lit "System"])`: first non-null. -/
def surrogateId (r : EventRow) : String :=
  match r.user with
  | some u => u
  | none =>
      match r.source_host with
      | some h => h
      | none => "System"

/-- Stable insertion against a boolean `≤` comparator: the new element goes
after existing elements it ties with. -/
def insertLe {α : Type} (le : α → α → Bool) (x : α) : List α → List α
  | [] => [x]
  | y :: ys => if le y x then y :: insertLe le x ys else x :: y :: ys

/-- Stable insertion sort (models the frame sorts; ties keep their
previous relative order). -/
def isortLe {α : Type} (le : α → α → Bool) (l : List α) : List α :=
  l.foldl (fun acc x => insertLe le x acc) []

/-- Comparator for `df.sort("timestamp")`. -/
def tsLe (a b : EventRow) : Bool := a.timestamp ≤ b.timestamp

/-- Comparator for `df.sort(["surrogate_id", "timestamp"])`. -/
def surrTsLe (a b : EventRow) : Bool :=
  if surrogateId a = surrogateId b then a.timestamp ≤ b.timestamp
  else strLeBool (surrogateId a).data (surrogateId b).data

/-- The rows as ordered by the two sorts of `load_sessions`. -/
def sortedRows (df : DataFrame) : List EventRow :=
  isortLe surrTsLe (isortLe tsLe df.rows)

/-- The `session_group_id` column (ingest.py lines 85–93): per surrogate,
the running count of events whose gap from the predecessor exceeds 60
minutes (a missing predecessor is filled with a 365-day gap, so each
surrogate's first event opens group 1).  The column is computed by the
source and never used afterwards. -/
def sessionGroupIdsGo (state : List (String × (ℕ × ℕ))) : List EventRow → List ℕ
  | [] => []
  | r :: rest =>
      let k := surrogateId r
      match state.lookup k with
      | none => 1 :: sessionGroupIdsGo ((k, (r.timestamp, 1)) :: state) rest
      | some (t, c) =>
          let c2 := if 3600 < r.timestamp - t then c + 1 else c
          c2 :: sessionGroupIdsGo ((k, (r.timestamp, c2)) :: state) rest

def sessionGroupIds (rows : List EventRow) : List ℕ := sessionGroupIdsGo [] rows

/-- `unique_session_id` (ingest.py line 96): a label derived from the
surrogate alone. -/
def uniqueSessionId (r : EventRow) : String := "Activity on " ++ surrogateId r

/-- Distinct-count including a possible null (`Series.n_unique`). -/
def nUniqueOpt (l : List (Option String)) : ℕ :=
  (l.foldl (fun acc s => if s ∈ acc then acc else acc ++ [s]) []).length

/-- Column maximum of the confidence scores (groups are non-empty). -/
def maxConf (rows : List EventRow) : ℚ :=
  match rows with
  | [] => 0
  | r :: rest => rest.foldl (fun m x => qmax m x.confidence_score) r.confidence_score

/-- Domain-object conversion of one row (ingest.py lines 127–142). -/
def rowToEvent (r : EventRow) : EnrichedEvent :=
  { event_id := r.event_id
    timestamp := r.timestamp
    user := orUnknown r.user
    source_host := orUnknown r.source_host
    target_host := r.target_host
    event_type := r.event_type
    protocol := r.protocol
    mitre_technique := r.mitre_technique
    observed_cve_ids := r.observed_cve_ids
    observed_cwe_ids := r.observed_cwe_ids
    confidence_score := r.confidence_score
    data_quality_score := r.data_quality_score
    raw_text := r.raw_source }

/-- Materialise the session of one partition (ingest.py lines 107–151). -/
def mkSession (sid : String) (rows : List EventRow) : Option Session :=
  match rows with
  | [] => none
  | first :: rest =>
      let priority :=
        decide (1 < nUniqueOpt ((first :: rest).map (·.source_host))) ||
        decide ((8:ℚ)/10 < maxConf (first :: rest))
      some
        { session_id := sid
          user := first.user
          start_time := first.timestamp
          end_time := ((first :: rest).getLast (by simp)).timestamp
          events := (first :: rest).map rowToEvent
          is_high_priority := priority }

/-- `DataIngester.load_sessions` from the loaded frame on: missing
`timestamp` column logs a warning and yields the empty session list
(ingest.py lines 58–64); otherwise rows are sorted, partitioned by
`unique_session_id` (first-occurrence order of the keys) and materialised.
The `session_group_id` column is computed but takes no part in the
partitioning. -/
def load_sessions (df : DataFrame) : Except IngestError (List Session) :=
  if df.hasTimestampCol = false then .ok []
  else
    let rows := sortedRows df
    let _groups := sessionGroupIds rows
    let keys := dedupFirst (rows.map uniqueSessionId)
    .ok (keys.filterMap (fun k => mkSession k (rows.filter (fun r => uniqueSessionId r = k))))

/-! ## Tool2 vulnerability discovery and event enrichment (`engine.py`) -/

/-- `CWE_TECH_MAP` of Tool2/src/engine.py. -/
def CWE_TECH_MAP : List (String × String) :=
  [ ("CWE-798", "T1078"), ("CWE-287", "T1078"), ("CWE-306", "T1078")
  , ("CWE-94", "T1059"), ("CWE-89", "T1190"), ("CWE-78", "T1059")
  , ("CWE-434", "T1505"), ("CWE-22", "T1083"), ("CWE-20", "T1190")
  , ("CWE-79", "T1190"), ("CWE-264", "T1078"), ("CWE-693", "T1562")
  , ("CWE-525", "T1046"), ("CWE-615", "T1592"), ("CWE-1021", "T1204")
  , ("CWE-200", "T1046") ]

def isDigit (c : Char) : Bool := decide ('0' ≤ c) && decide (c ≤ '9')

/-- Case-insensitive character comparison (re.I). -/
def ciEq (a b : Char) : Bool := a.toLower = b.toLower

/-- Take between `lo` and `hi` digits, greedily. -/
def takeDigits (hi : ℕ) : List Char → List Char × List Char
  | [] => ([], [])
  | c :: cs =>
      if isDigit c ∧ 0 < hi then
        let p := takeDigits (hi - 1) cs
        (c :: p.1, p.2)
      else ([], c :: cs)

/-- Match the pattern `CVE-\d{4}-\d{4,7}` (case-insensitive) at the head,
returning the matched text and the rest. -/
def matchCveAt (cs : List Char) : Option (List Char × List Char) :=
  match cs with
  | c1 :: c2 :: c3 :: c4 :: rest =>
      if ciEq c1 'c' ∧ ciEq c2 'v' ∧ ciEq c3 'e' ∧ c4 = '-' then
        let p1 := takeDigits 4 rest
        if p1.1.length = 4 then
          match p1.2 with
          | '-' :: rest2 =>
              let p2 := takeDigits 7 rest2
              if 4 ≤ p2.1.length then
                some ([c1, c2, c3, c4] ++ p1.1 ++ ['-'] ++ p2.1, p2.2)
              else none
          | _ => none
        else none
      else none
  | _ => none

/-- Match the pattern `CWE-\d{1,5}` (case-insensitive) at the head. -/
def matchCweAt (cs : List Char) : Option (List Char × List Char) :=
  match cs with
  | c1 :: c2 :: c3 :: c4 :: rest =>
      if ciEq c1 'c' ∧ ciEq c2 'w' ∧ ciEq c3 'e' ∧ c4 = '-' then
        let p := takeDigits 5 rest
        if 1 ≤ p.1.length then some ([c1, c2, c3, c4] ++ p.1, p.2)
        else none
      else none
  | _ => none

/-- Match the structural pattern `[\'"]cwe_?id[\'"]:\s*[\'"]?(\d+)[\'"]?`
at the head, returning the digit group and the rest. -/
def matchStructCweAt (cs : List Char) : Option (List Char × List Char) :=
  match cs with
  | q1 :: rest =>
      if q1 = '\'' ∨ q1 = '"' then
        let afterCwe : Option (List Char) :=
          match rest with
          | a :: b :: c :: more =>
              if ciEq a 'c' ∧ ciEq b 'w' ∧ ciEq c 'e' then
                match more with
                | u :: more2 => if u = '_' then some more2 else some more
                | [] => some []
              else none
          | _ => none
        match afterCwe with
        | none => none
        | some more =>
            match more with
            | i1 :: d1 :: q2 :: colon :: rest2 =>
                if ciEq i1 'i' ∧ ciEq d1 'd' ∧ (q2 = '\'' ∨ q2 = '"') ∧ colon = ':' then
                  let rest3 := rest2.dropWhile (fun c => c = ' ' ∨ c = '\t' ∨ c = '\n' ∨ c = '\r')
                  let rest4 :=
                    match rest3 with
                    | q3 :: r4 => if q3 = '\'' ∨ q3 = '"' then r4 else rest3
                    | [] => []
                  let p := takeDigits 100000 rest4
                  if 1 ≤ p.1.length then
                    let rest5 :=
                      match p.2 with
                      | q4 :: r5 => if q4 = '\'' ∨ q4 = '"' then r5 else p.2
                      | [] => []
                    some (p.1, rest5)
                  else none
                else none
            | _ => none
      else none
  | [] => none

/-- `re.findall` driver: left-to-right, non-overlapping, one character of
progress where no match starts. -/
def scanAll (try1 : List Char → Option (List Char × List Char)) :
    ℕ → List Char → List (List Char)
  | 0, _ => []
  | _, [] => []
  | f+1, c :: cs =>
      match try1 (c :: cs) with
      | some (m, rest) => m :: scanAll try1 f rest
      | none => scanAll try1 f cs

/-- `GraphEngine._discover_vulnerabilities`: regex discovery of CVE and CWE
identifiers plus structural `cwe_id` keys in stringified logs.  Python
builds `list(set(findall(...)))`, whose iteration order is unspecified; the
embedding keeps first-occurrence order, on which nothing verified here
depends. -/
def _discover_vulnerabilities (text : String) : List String × List String :=
  let cs := text.data
  let cves := dedupFirst ((scanAll matchCveAt cs.length cs).map String.mk)
  let cwes := dedupFirst ((scanAll matchCweAt cs.length cs).map String.mk)
  let structCwes := (scanAll matchStructCweAt cs.length cs).map
    (fun m => "CWE-" ++ String.mk m)
  let cwes := structCwes.foldl (fun acc c => if c ∈ acc then acc else acc ++ [c]) cwes
  (cves, cwes)

/-- Scan text of one event: `e.raw_text or f"{e.event_type} {e.mitre_technique}"`
(Python renders a missing technique as the literal `None`). -/
def scanText (e : EnrichedEvent) : String :=
  let fallback := e.event_type ++ " " ++
    (match e.mitre_technique with | none => "None" | some t => t)
  match e.raw_text with
  | none => fallback
  | some t => if t = "" then fallback else t

/-- The event-enrichment step of `GraphEngine._compute_metrics` (engine.py
lines 150–167, vulnerability-intelligence discovery): when Tool 1 supplied
no technique, the first recognised CWE's hinted technique is written into
the event's `mitre_technique` field (an in-place mutation in the source). -/
def enrichEvent (e : EnrichedEvent) : EnrichedEvent :=
  let cwes := (_discover_vulnerabilities (scanText e)).2
  if e.mitre_technique = none ∨ e.mitre_technique = some "Unknown" ∨
      e.mitre_technique = some "" then
    match cwes.find? (fun c => (CWE_TECH_MAP.lookup c).isSome) with
    | some c => { e with mitre_technique := CWE_TECH_MAP.lookup c }
    | none => e
  else e

/-- The whole event-mutation pass of `_compute_metrics`: every other use of
the session's events in that method only reads their fields. -/
def enrichEvents (events : List EnrichedEvent) : List EnrichedEvent :=
  events.map enrichEvent

/-! ## Concrete ingest inputs used by the claim theorems -/

/-- A convenience row constructor for the examples. -/
def mkRow (eid : String) (ts : ℕ) (u h : Option String) (etype : String)
    (tech : Option String) (conf : ℚ) : EventRow :=
  { event_id := eid, timestamp := ts, user := u, source_host := h
    target_host := none, event_type := etype, protocol := none
    mitre_technique := tech, observed_cve_ids := [], observed_cwe_ids := []
    confidence_score := conf, data_quality_score := 1, raw_source := none }

/-- Two events of the same user two hours apart — more than the 60-minute
session window. -/
def dfGap : DataFrame :=
  { hasTimestampCol := true
    rows :=
      [ mkRow "e1" 0 (some "alice") (some "h1") "auth_failure" (some "T1110") (1/2)
      , mkRow "e2" 7200 (some "alice") (some "h1") "auth_failure" none (1/2) ] }

/-- A non-empty batch whose frame lacks the mandatory `timestamp` column. -/
def dfNoTs : DataFrame :=
  { hasTimestampCol := false
    rows := [ mkRow "e1" 0 (some "alice") (some "h1") "auth_failure" none (1/2) ] }

/-- An ingested event without a technique whose raw log text names CWE-89. -/
def evNoTech : EnrichedEvent :=
  { event_id := "e9", timestamp := 10, user := "alice", source_host := "h1"
    target_host := none, event_type := "security_alert", protocol := none
    mitre_technique := none, observed_cve_ids := [], observed_cwe_ids := []
    confidence_score := 9/10, data_quality_score := 1
    raw_text := some "SQL error CWE-89 detected on /login" }

/-- An ingested event that already carries a technique. -/
def evWithTech : EnrichedEvent :=
  { evNoTech with event_id := "e10", mitre_technique := some "T1110" }

/-- Per-session event timestamps of a `load_sessions` result. -/
def sessionTsLists (r : Except IngestError (List Session)) : List (List ℕ) :=
  (r.toOption.getD []).map (fun s => s.events.map (fun e => e.timestamp))

end Predictpath

namespace Predictpath

/-! ## Tool2 anomaly scoring (`engine.py` lines 311–327 and 350–354)

The refined anomaly score depends on the session only through the unique
technique count, the event count, the KEV count and the highest CVSS; the
embedding takes those four quantities as arguments.  Real-number arithmetic
models Python float arithmetic. -/

/-- Python `round` half-to-even on a real value. -/
noncomputable def roundHalfEvenR (x : ℝ) : ℤ :=
  if Int.fract x = 1/2 then
    (if Even (Int.floor x) then Int.floor x else Int.floor x + 1)
  else round x

/-- Python `round(x, digits)` on a real value. -/
noncomputable def pyRoundR (x : ℝ) (digits : ℕ) : ℝ :=
  (roundHalfEvenR (x * 10 ^ digits) : ℝ) / 10 ^ digits

/-- `diversity_score = min(unique_techniques × 10, 70)`. -/
noncomputable def diversity_score (techCount : ℕ) : ℝ :=
  min (techCount * 10) 70

/-- `volume_score = min(log10(event_count + 1) × 10, 30)`. -/
noncomputable def volume_score (eventCount : ℕ) : ℝ :=
  min (Real.logb 10 (eventCount + 1) * 10) 30

/-- Impact-driven escalation of the refined score (engine.py lines
323–327): KEV presence multiplies by 1.5 capping at 100, else a critical
CVSS multiplies by 1.25 capping at 95. -/
noncomputable def escalated_score (base : ℝ) (kevCount : ℕ) (highestCvss : ℝ) : ℝ :=
  if 0 < kevCount then min (base * 1.5) 100
  else if 9 ≤ highestCvss then min (base * 1.25) 95
  else base

/-- `path_anomaly_score` as stored in the PathReport:
`round(min(final_score, 100.0), 2)` over the refined score. -/
noncomputable def path_anomaly_score (techCount eventCount kevCount : ℕ)
    (highestCvss : ℝ) : ℝ :=
  pyRoundR
    (min (escalated_score (diversity_score techCount + volume_score eventCount)
      kevCount highestCvss) 100) 2

/-- The claim's formula, word for word: diversity plus volume, escalated
only when the base exceeds zero. -/
noncomputable def claimScoreC5 (techCount eventCount kevCount : ℕ)
    (highestCvss : ℝ) : ℝ :=
  if 0 < diversity_score techCount + volume_score eventCount then
    escalated_score (diversity_score techCount + volume_score eventCount)
      kevCount highestCvss
  else diversity_score techCount + volume_score eventCount

end Predictpath

namespace Predictpath

/-! ## Tool4 decision engine (`engine.py`, `knowledge_base.py`)

The engine consumes forecast dictionaries and the per-session correlation
context built by `analyze_correlations` (which always populates
`confidence_boost`, `principal_id`, `session_count`, `group_is_kev` and
`group_max_cvss`; the `.get` defaults at the use sites never fire for such
contexts, and the context record models exactly those keys).  Catalog
lookups are passed in as a total map, mirroring VulnIntel's zero-record
fallback.  Narrative strings of the output (mentor summary, explainability
prose, mitigation guideline texts and the numeric interpolations inside
rejection-reason strings, which in the source render Python floats) are not
reproduced; every decision-bearing field is. -/

/-- A CVE record as returned by `VulnManager.batch_lookup_cves` (missing
ids yield the zero record). -/
structure VulnRec where
  cvss : ℚ
  cwe_ids : List String
  is_kev : Bool
  kev_name : Option String
  deriving DecidableEq, Repr

/-- `ACTION_COSTS` of Tool4/src/knowledge_base.py. -/
def ACTION_COSTS : List (String × ℚ) :=
  [ ("Monitor User Behavior", 0), ("Enable Process Auditing", 1/10)
  , ("Enable Logon Failure Auditing", 1/10), ("Alert SOC (High Priority)", 2/10)
  , ("Block Inbound SMB", 5/10), ("Block Inbound IP", 5/10)
  , ("Disable Account", 6/10), ("Terminate Web Shell Process", 7/10)
  , ("Restore Security Configurations", 4/10), ("Restrict File Access", 5/10)
  , ("Isolate Host", 9/10) ]

/-- `CONFIDENCE_THRESHOLDS` of Tool4/src/knowledge_base.py. -/
def CONFIDENCE_THRESHOLDS : List (String × ℚ) :=
  [ ("Monitor User Behavior", 0), ("Enable Process Auditing", 1/10)
  , ("Enable Logon Failure Auditing", 1/10), ("Alert SOC (High Priority)", 35/100)
  , ("Block Inbound SMB", 6/10), ("Block Inbound IP", 6/10)
  , ("Disable Account", 75/100), ("Terminate Web Shell Process", 7/10)
  , ("Restore Security Configurations", 5/10), ("Restrict File Access", 6/10)
  , ("Isolate Host", 85/100) ]

/-- `TECHNIQUE_RESPONSE_MAP` of Tool4/src/knowledge_base.py. -/
def TECHNIQUE_RESPONSE_MAP : List (String × List String) :=
  [ ("T1078", ["Disable Account", "Enable Logon Failure Auditing"])
  , ("T1110", ["Disable Account", "Alert SOC (High Priority)"])
  , ("T1046", ["Isolate Host", "Enable Process Auditing"])
  , ("T1021", ["Isolate Host", "Block Inbound SMB"])
  , ("T1003", ["Isolate Host", "Alert SOC (High Priority)"])
  , ("T1560", ["Isolate Host", "Alert SOC (High Priority)"])
  , ("T1041", ["Isolate Host", "Alert SOC (High Priority)"])
  , ("T1486", ["Isolate Host"])
  , ("T1190", ["Isolate Host", "Enable Process Auditing"])
  , ("T1059", ["Isolate Host", "Enable Process Auditing"])
  , ("T1505", ["Isolate Host", "Terminate Web Shell Process"])
  , ("T1562", ["Isolate Host", "Restore Security Configurations"])
  , ("T1592", ["Enable Process Auditing", "Monitor User Behavior"])
  , ("T1595", ["Block Inbound IP", "Monitor User Behavior"])
  , ("T1083", ["Enable Process Auditing", "Restrict File Access"]) ]

/-- The CWE heuristic severities of `evaluate_session` (engine.py lines
83–91). -/
def cwe_heuristic_scores : List (String × ℚ) :=
  [ ("CWE-78", 98/10), ("CWE-89", 98/10), ("CWE-434", 85/10), ("CWE-94", 98/10)
  , ("CWE-287", 75/10), ("CWE-20", 7), ("CWE-79", 61/10) ]

/-- Contiguous-substring auxiliary: does `pat` start at some position? -/
def infixAux (pat : List Char) : List Char → Bool
  | [] => pat.isEmpty
  | c :: rest => pat.isPrefixOf (c :: rest) || infixAux pat rest

/-- Python substring test `pat in hay`. -/
def containsSub (hay pat : String) : Bool :=
  pat.toList.isPrefixOf hay.toList || infixAux pat.toList hay.toList

/-- The disruptive-action keywords (engine.py line 205). -/
def disruptive_keywords : List String :=
  ["Block", "Isolate", "Disable", "Reset", "Terminate"]

/-- Whether an action name contains one of the disruptive keywords. -/
def isDisruptiveName (action : String) : Bool :=
  disruptive_keywords.any (fun k => containsSub action k)

/-- Maximum of a rational list together with 0 (`max(xs + [0.0])`). -/
def qmaxOf (l : List ℚ) : ℚ := l.foldl qmax 0

/-- One scenario dictionary as read by the decision engine. -/
structure ScenarioIn where
  sequence : List String
  probability : ℚ
  reaction_min_seconds : Option ℕ
  deriving DecidableEq, Repr

/-- The forecast's `current_state` as read by the decision engine. -/
structure CurrentStateIn where
  host_scope : List String
  observed_vulnerabilities : List String
  deriving DecidableEq, Repr

/-- One forecast dictionary as read by `evaluate_session`. -/
structure ForecastIn where
  session_id : String
  aggregate_confidence : ℚ
  predicted_scenarios : List ScenarioIn
  current_state : CurrentStateIn
  deriving DecidableEq, Repr

/-- The per-session correlation context of `analyze_correlations`. -/
structure CorrelationCtx where
  confidence_boost : ℚ
  principal_id : String
  session_count : ℕ
  group_is_kev : Bool
  group_max_cvss : ℚ
  deriving DecidableEq, Repr

structure ActionTarget where
  type : String
  identifier : String
  deriving DecidableEq, Repr

structure RecommendedAction where
  action_type : String
  action_class : String
  requires_approval : Bool
  target : ActionTarget
  is_kev : Bool
  max_cvss : ℚ
  recommended_within_seconds : ℕ
  deriving DecidableEq, Repr

structure RejectedAction where
  candidate_action : String
  rejection_reasons : List String
  deriving DecidableEq, Repr

structure ResponseDecision where
  session_id : String
  decision_confidence : ℚ
  priority_rank : ℤ
  urgency_level : String
  recommended_actions : List RecommendedAction
  rejected_actions : List RejectedAction
  deriving DecidableEq, Repr

/-- The `predicted_techs[0]` subscript of engine.py line 160 raises on an
empty sequence; this is the only failure path of `evaluate_session`. -/
inductive EvalError where
  | indexError
  deriving DecidableEq, Repr

/-- Rejection reasons gathered for one candidate action (engine.py lines
117–136): insufficient confidence against the — possibly urgency-lowered —
threshold, or a low aggregated risk against a high-cost action. -/
def strategyReasons (decision_conf : ℚ) (is_urgent : Bool) (eval_prob : ℚ)
    (strat : String) : List String :=
  let required_conf := (CONFIDENCE_THRESHOLDS.lookup strat).getD 1
  let cost := (ACTION_COSTS.lookup strat).getD 0
  let effective_conf_threshold :=
    if is_urgent ∧ strat ≠ "Monitor User Behavior" then
      qmax (1/10) (required_conf - 2/10)
    else required_conf
  (if decision_conf < effective_conf_threshold then
    ["Confidence < Eff. Threshold"] else []) ++
  (if eval_prob < 2/10 ∧ 6/10 < cost then
    ["Aggregated Risk too low for High Cost"] else [])

/-- Strategy inner loop (engine.py lines 116–146): the first strategy with
no rejection reasons is selected; the others accumulate. -/
def evalStrategies (decision_conf : ℚ) (is_urgent : Bool) (eval_prob : ℚ)
    (rejections : List RejectedAction) :
    List String → Option String × List RejectedAction
  | [] => (none, rejections)
  | strat :: rest =>
      if strategyReasons decision_conf is_urgent eval_prob strat = [] then
        (some strat, rejections)
      else evalStrategies decision_conf is_urgent eval_prob
        (rejections ++ [{ candidate_action := strat
                          rejection_reasons := strategyReasons decision_conf is_urgent eval_prob strat }]) rest

/-- Scenario outer loop (engine.py lines 108–149). -/
def evalScenarios (decision_conf : ℚ) (is_urgent : Bool) (sessionCount : ℕ)
    (rejections : List RejectedAction) :
    List ScenarioIn → Option (String × ScenarioIn) × List RejectedAction
  | [] => (none, rejections)
  | sc :: rest =>
      match sc.sequence with
      | [] => evalScenarios decision_conf is_urgent sessionCount rejections rest
      | target_tech :: _ =>
          let strategies := (TECHNIQUE_RESPONSE_MAP.lookup target_tech).getD
            ["Monitor User Behavior"]
          let eval_prob := sc.probability * (1 + ((sessionCount : ℚ) - 1) * (1/10))
          match evalStrategies decision_conf is_urgent eval_prob rejections strategies with
          | (some strat, rej) => (some (strat, sc), rej)
          | (none, rej) => evalScenarios decision_conf is_urgent sessionCount rej rest

/-- Action class and approval flag (engine.py lines 201–219): disruptive
names require approval, KEV-present containment is forced auto, and a
borderline confidence margin forces approval. -/
def classifyAction (evaluated_action : String) (is_kev : Bool)
    (decision_conf : ℚ) : String × Bool :=
  let act_class := if isDisruptiveName evaluated_action then "Disruptive" else "Containment"
  let act_approval := if isDisruptiveName evaluated_action then true else false
  let threshold := (CONFIDENCE_THRESHOLDS.lookup evaluated_action).getD 0
  let act_approval := if is_kev ∧ act_class = "Containment" then false else act_approval
  let act_approval :=
    if 0 < threshold ∧ decision_conf - threshold < 5/100 then true else act_approval
  (act_class, act_approval)

/-- `normalize_target` (engine.py lines 176–179): pull the host out of a
URL-shaped identifier. -/
def normalize_target (t : String) : String :=
  let cs := t.data
  let rec go : List Char → Option (List Char)
    | [] => none
    | c :: rest =>
        if (String.mk (c :: rest)).startsWith "http://" then
          some ((rest.drop 6).takeWhile (fun x => x ≠ '/'))
        else if (String.mk (c :: rest)).startsWith "https://" then
          some ((rest.drop 7).takeWhile (fun x => x ≠ '/'))
        else go rest
  match go cs with
  | some host => String.mk host
  | none => t

/-- `_build_monitor_only` (engine.py lines 282–310).  Modelled from the
spec for the two dataclass defaults (`Tool4/src/domain.py` is not in the
source tree): actions without a disruptive keyword are class Containment
and need no approval, so the default-constructed monitor action carries
`action_class = "Containment"`, `requires_approval = false`.  The
`vulnerability_details` default is the empty dict: no KEV, zero CVSS. -/
def build_monitor_only (sid : String) (conf : ℚ) : ResponseDecision :=
  { session_id := sid
    decision_confidence := conf
    priority_rank := 0
    urgency_level := "Low"
    recommended_actions :=
      [ { action_type := "Monitor User Behavior"
          action_class := "Containment"
          requires_approval := false
          target := { type := "User", identifier := sid }
          is_kev := false
          max_cvss := 0
          recommended_within_seconds := 0 } ]
    rejected_actions := [] }

/-- `DecisionEngine.evaluate_session` (engine.py lines 68–280). -/
def evaluate_session (vdb : String → VulnRec) (fd : ForecastIn)
    (ctx : CorrelationCtx) : Except EvalError ResponseDecision :=
  let decision_conf := qmin (fd.aggregate_confidence * ctx.confidence_boost) 1
  let ids := dedupFirst fd.current_state.observed_vulnerabilities
  let cvssList := ids.map (fun i => (vdb i).cvss) ++
    fd.current_state.observed_vulnerabilities.filterMap
      (fun v => cwe_heuristic_scores.lookup v)
  let is_kev := ctx.group_is_kev
  let max_cvss := qmaxOf (cvssList ++ [ctx.group_max_cvss])
  let is_urgent := is_kev || decide (9 ≤ max_cvss)
  let sr := evalScenarios decision_conf is_urgent ctx.session_count []
    fd.predicted_scenarios
  let evaluated_action := (sr.1.map (·.1)).getD "Monitor User Behavior"
  let primary : Option ScenarioIn :=
    match sr.1 with
    | some p => some p.2
    | none => fd.predicted_scenarios.head?
  match primary with
  | none => .ok (build_monitor_only fd.session_id decision_conf)
  | some psc =>
      match psc.sequence with
      | [] => .error .indexError
      | _target_tech :: _ =>
          let probability := psc.probability
          let min_time := psc.reaction_min_seconds.getD 9999
          let urgency0 :=
            if min_time < 300 ∨ is_kev = true ∨ 9 ≤ max_cvss then "Critical"
            else if min_time < 3600 ∨ 7 ≤ max_cvss then "High"
            else if min_time < 14400 then "Medium"
            else "Low"
          let urgency :=
            if decision_conf < 35/100 ∧ is_kev = false then "Low" else urgency0
          let target : ActionTarget :=
            if containsSub evaluated_action "Isolate" || containsSub evaluated_action "Block" then
              { type := "Host"
                identifier := normalize_target
                  ((fd.current_state.host_scope.getLast?).getD "Unknown") }
            else { type := "User", identifier := ctx.principal_id }
          let ca := classifyAction evaluated_action is_kev decision_conf
          let rank := decision_conf * 100 + probability * 100 +
            (if is_kev then 2000 else if urgency = "Critical" then 1000 else 0)
          .ok
            { session_id := fd.session_id
              decision_confidence := pyRound decision_conf 2
              priority_rank := Int.floor rank
              urgency_level := urgency
              recommended_actions :=
                [ { action_type := evaluated_action
                    action_class := ca.1
                    requires_approval := ca.2
                    target := target
                    is_kev := is_kev
                    max_cvss := max_cvss
                    recommended_within_seconds := min_time } ]
              rejected_actions := sr.2 }

end Predictpath

namespace Predictpath

/-- Zero-record catalog (`VulnIntel` fallback), used where no CVE data is
needed. -/
def zeroVdb : String → VulnRec :=
  fun _ => { cvss := 0, cwe_ids := [], is_kev := false, kev_name := none }

/-- A concrete forecast for the decision-engine witness. -/
def fdC6 : ForecastIn :=
  { session_id := "Activity on alice"
    aggregate_confidence := 9/10
    predicted_scenarios :=
      [ { sequence := ["T1110", "T1021"], probability := 8/10
          reaction_min_seconds := some 120 } ]
    current_state := { host_scope := ["h1"], observed_vulnerabilities := [] } }

/-- Its correlation context (single-session principal, no KEV). -/
def ctxC6 : CorrelationCtx :=
  { confidence_boost := 115/100, principal_id := "Activity on alice"
    session_count := 1, group_is_kev := false, group_max_cvss := 0 }

def c6Run : Except EvalError ResponseDecision := evaluate_session zeroVdb fdC6 ctxC6

def c6Dec : ResponseDecision := (c6Run.toOption).getD (build_monitor_only "none" 0)

end Predictpath

namespace Predictpath

/-! ## Tool3 trajectory forecaster (`predictor.py`)

The transition matrix, the time priors, the prerequisites table and the
technique-name map live in `Tool3/src/knowledge_base.py`, which is not part
of the source tree; they are passed as parameters, so every theorem below
holds for all such tables.  `CWE_MAP` is defined in predictor.py itself.
Sequence-join keys use `"-".join` / `"->".join` as in the source; Python
`set` iteration orders are modelled as first-occurrence order (nothing
verified depends on them). -/

/-- `CWE_MAP` of Tool3/src/predictor.py. -/
def CWE_MAP : List (String × List String) :=
  [ ("CWE-798", ["T1078"]), ("CWE-287", ["T1078", "T1110"]), ("CWE-306", ["T1078"])
  , ("CWE-94", ["T1059", "T1190"]), ("CWE-89", ["T1190", "T1059"]), ("CWE-78", ["T1059", "T1190"])
  , ("CWE-434", ["T1505", "T1190"]), ("CWE-22", ["T1083"]), ("CWE-20", ["T1190"])
  , ("CWE-79", ["T1190"]), ("CWE-264", ["T1078"]), ("CWE-693", ["T1562"])
  , ("CWE-525", ["T1046"]), ("CWE-615", ["T1592"]), ("CWE-1021", ["T1204"])
  , ("CWE-209", ["T1592", "T1046"]), ("CWE-307", ["T1110"]) ]

/-- The `CurrentState` consumed by `TrajectoryEngine.predict`. -/
structure CurrentState where
  observed_techniques : List String
  host_scope : List String
  observed_vulnerabilities : List String
  graph_depth : ℕ
  deriving DecidableEq, Repr

/-- One predicted scenario (presentation strings such as the humanised
sequence and the time-window text are not reproduced; every numeric and
classification field is). -/
structure PredictedScenario where
  sequence : List String
  probability : ℚ
  min_seconds : ℤ
  max_seconds : ℤ
  risk_level : String
  scenario_type : String
  positive_evidence : List String
  deriving DecidableEq, Repr

/-- The per-session forecast output of `predict`. -/
structure PredictionSummary where
  session_id : String
  current_state : CurrentState
  predicted_scenarios : List PredictedScenario
  model_version : String
  aggregate_confidence : ℚ
  suppression_reason : Option String
  deriving DecidableEq, Repr

/-- Python `int()` truncation of a rational toward zero. -/
def pyInt (q : ℚ) : ℤ := q.num / (q.den : ℤ)

/-- One BFS queue entry:
`(current_technique, path, cumulative_probability, t_min, t_max)`. -/
structure BfsState where
  curr : String
  path : List String
  prob : ℚ
  tMin : ℚ
  tMax : ℚ
  deriving DecidableEq, Repr

/-- `TrajectoryEngine._build_scenario`. -/
def _build_scenario (tn : String → String) (sequence : List String) (prob tMin tMax : ℚ)
    (state : CurrentState) (vuln_data : List VulnRec) : PredictedScenario :=
  let last_tech := (sequence.getLast?).getD ""
  let risk :=
    if last_tech = "T1041" ∨ last_tech = "T1486" then "Critical"
    else if last_tech = "T1003" ∨ last_tech = "T1021" then "High"
    else "Medium"
  let kevLine :=
    if vuln_data.any (·.is_kev) then
      ["Active KEV exploit detected; compressing reaction window by 40%"]
    else []
  let trigger := (state.observed_techniques.getLast?).getD "Initial Access"
  let next_step := (sequence.head?).getD ""
  let matching_cwes := (CWE_MAP.filter
    (fun p => (next_step ∈ p.2 ∨ trigger ∈ p.2) ∧ p.1 ∈ state.observed_vulnerabilities)).map (·.1)
  let causal :=
    if matching_cwes ≠ [] then
      ["Captured weakness " ++ commaJoin ((dedupFirst matching_cwes).take 2) ++
        " allows an attacker to achieve " ++ tn next_step]
    else ["Causal path from " ++ tn trigger]
  { sequence := sequence
    probability := pyRound (qmin prob 1) 3
    min_seconds := pyInt tMin
    max_seconds := pyInt tMax
    risk_level := risk
    -- the constructor leaves the dataclass default here; every emitted
    -- scenario has it overwritten by the ranking pass before leaving the
    -- engine, so the placeholder is never observable
    scenario_type := ""
    positive_evidence := kevLine ++ causal ++ kevLine }

/-- The transition modifier chain of one candidate expansion (predictor.py
lines 163–179): ×1.4 per enabling observed CWE, ×1.2 under KEV, reset to 0
for lateral movement without a second host, ×1.5 for the
collection→exfiltration synergy. -/
def transModifier (all_cwes : List String) (kevPresent : Bool)
    (state : CurrentState) (next_tech : String) : ℚ :=
  let m1 := CWE_MAP.foldl
    (fun m p => if next_tech ∈ p.2 ∧ p.1 ∈ all_cwes then m * (14/10) else m) 1
  let m2 := if kevPresent then m1 * (12/10) else m1
  let m3 := if next_tech = "T1021" ∧ state.host_scope.length < 2 then 0 else m2
  if next_tech = "T1041" ∧ "T1560" ∈ state.observed_techniques then
    m3 * (15/10) else m3

/-- Expansion of one popped state over the transitions of its current
technique (predictor.py lines 162–191): the modifier chain, the 0.1
pruning threshold, the KEV reaction-window compression and path-string
deduplication. -/
def expandTransitions (all_cwes : List String) (kevPresent : Bool)
    (state : CurrentState) (tp : List (String × (ℚ × ℚ))) (st : BfsState) :
    List (String × ℚ) → List String → List BfsState × List String
  | [], visited => ([], visited)
  | (next_tech, trans_prob) :: rest, visited =>
      let dwell_mult : ℚ := if kevPresent then 6/10 else 1
      let new_prob := st.prob * trans_prob * transModifier all_cwes kevPresent state next_tech
      if new_prob < 1/10 then
        expandTransitions all_cwes kevPresent state tp st rest visited
      else
        let dwell := (tp.lookup next_tech).getD (60, 3600)
        let new_path := st.path ++ [next_tech]
        let key := String.intercalate "-" new_path
        if key ∈ visited then
          expandTransitions all_cwes kevPresent state tp st rest visited
        else
          let res := expandTransitions all_cwes kevPresent state tp st rest (visited ++ [key])
          ({ curr := next_tech, path := new_path, prob := new_prob
             tMin := st.tMin + dwell.1 * dwell_mult
             tMax := st.tMax + dwell.2 * dwell_mult } :: res.1, res.2)

/-- The BFS while-loop (predictor.py lines 156–191), with explicit fuel:
each iteration pops one state, emits a scenario for a non-empty path, and
expands below `max_depth`. -/
def bfsLoop (tm : List (String × List (String × ℚ))) (tp : List (String × (ℚ × ℚ)))
    (tn : String → String) (state : CurrentState) (vuln_data : List VulnRec)
    (all_cwes : List String) (kevPresent : Bool) (max_depth : ℕ) :
    ℕ → List BfsState → List String → List PredictedScenario → List PredictedScenario
  | 0, _, _, scenarios => scenarios
  | _+1, [], _, scenarios => scenarios
  | fuel+1, st :: queue, visited, scenarios =>
      let scenarios2 :=
        if st.path ≠ [] then
          scenarios ++ [_build_scenario tn st.path st.prob st.tMin st.tMax state vuln_data]
        else scenarios
      if max_depth ≤ st.path.length then
        bfsLoop tm tp tn state vuln_data all_cwes kevPresent max_depth fuel queue visited scenarios2
      else
        let res := expandTransitions all_cwes kevPresent state tp st
          ((tm.lookup st.curr).getD []) visited
        bfsLoop tm tp tn state vuln_data all_cwes kevPresent max_depth fuel
          (queue ++ res.1) res.2 scenarios2

/-- Stable descending sort by probability (`sorted(key=probability,
reverse=True)`). -/
def sortScenariosDesc (l : List PredictedScenario) : List PredictedScenario :=
  isortLe (fun a b => b.probability ≤ a.probability) l

/-- Scenario-type assignment by rank: 0 Primary, 1–2 Secondary, 3–4
Opportunistic. -/
def assignTypes (i : ℕ) : List PredictedScenario → List PredictedScenario
  | [] => []
  | s :: rest =>
      { s with scenario_type :=
          if i = 0 then "Primary" else if i < 3 then "Secondary" else "Opportunistic" } ::
        assignTypes (i + 1) rest

/-- `TrajectoryEngine._bfs_probabilistic_traversal`. -/
def _bfs_probabilistic_traversal (tm : List (String × List (String × ℚ)))
    (tp : List (String × (ℚ × ℚ))) (tn : String → String) (fuel : ℕ)
    (start_node : String) (state : CurrentState) (vuln_data : List VulnRec)
    (max_depth : ℕ) : List PredictedScenario :=
  let all_cwes := vuln_data.foldr (fun v acc => v.cwe_ids ++ acc) []
  let kevPresent := vuln_data.any (·.is_kev)
  let scenarios := bfsLoop tm tp tn state vuln_data all_cwes kevPresent max_depth
    fuel [{ curr := start_node, path := [], prob := 1, tMin := 0, tMax := 0 }] [] []
  assignTypes 0 ((sortScenariosDesc scenarios).take 5)

/-- Keyed deduplication of raw scenarios (predictor.py lines 72–76): one
entry per sequence string, keeping the maximum-probability instance in the
key's first-insertion position. -/
def upsertScenario (m : List (String × PredictedScenario)) (sc : PredictedScenario) :
    List (String × PredictedScenario) :=
  let key := String.intercalate "->" sc.sequence
  match m.lookup key with
  | none => m ++ [(key, sc)]
  | some old =>
      if old.probability < sc.probability then
        m.map (fun p => if p.1 = key then (key, sc) else p)
      else m

def dedupScenarios (l : List PredictedScenario) : List (String × PredictedScenario) :=
  l.foldl upsertScenario []

/-- Maximum scenario probability, 0.4 for an empty list (predictor.py line
87). -/
def maxProbOr (l : List PredictedScenario) : ℚ :=
  match l with
  | [] => 4/10
  | s :: rest => rest.foldl (fun m x => qmax m x.probability) s.probability

/-- `TrajectoryEngine.predict` (narrative text excluded; every numeric
field and the scenario pipeline are reproduced).  `prereqs` stands for
`PREREQUISITES`, `tm` for `TRANSITION_MATRIX`, `tp` for `TIME_PRIORS`, `tn`
for `get_technique_name`, and `vdb` for the catalog. -/
def predict (tm : List (String × List (String × ℚ))) (tp : List (String × (ℚ × ℚ)))
    (prereqs : List (String × List String)) (tn : String → String)
    (vdb : String → VulnRec) (fuel : ℕ) (session_id : String)
    (current_state : CurrentState) (current_risk : ℚ) : PredictionSummary :=
  let vuln_data := (dedupFirst current_state.observed_vulnerabilities).map vdb
  let vuln_enabled := current_state.observed_vulnerabilities.foldr
    (fun c acc => ((CWE_MAP.lookup c).getD []) ++ acc) []
  let all_potential_seeds :=
    dedupFirst (current_state.observed_techniques ++ vuln_enabled)
  let all_potential_seeds :=
    if all_potential_seeds = [] then ["T1595"] else all_potential_seeds
  let seeds := all_potential_seeds.filter (fun s =>
    ¬ all_potential_seeds.any (fun other =>
      decide (s ≠ other) && decide (s ∈ (prereqs.lookup other).getD [])))
  let all_raw := seeds.foldr (fun seed acc =>
    _bfs_probabilistic_traversal tm tp tn fuel seed current_state vuln_data 3 ++ acc) []
  let final_scenarios :=
    assignTypes 0 ((sortScenariosDesc ((dedupScenarios all_raw).map (·.2))).take 5)
  let vuln_match_count := ((dedupFirst current_state.observed_vulnerabilities).filter
    (fun v => (CWE_MAP.lookup v).isSome)).length
  let vuln_grounding_factor := qmin (vuln_match_count * (15/100)) (45/100)
  let max_prob := maxProbOr final_scenarios
  let kev_count := vuln_data.countP (·.is_kev)
  let kev_boost := qmin (kev_count * (2/10)) (4/10)
  let risk_floor : ℚ :=
    if 50 < current_risk then 4/10 else if 15 < current_risk then 2/10 else 0
  let aggregate_confidence :=
    pyRound (qmin (max_prob * (25/100) + vuln_grounding_factor + kev_boost + risk_floor) 1) 2
  { session_id := session_id
    current_state := current_state
    predicted_scenarios := final_scenarios
    model_version := "v4.0-Vuln-Aware"
    aggregate_confidence := aggregate_confidence
    suppression_reason := none }

end Predictpath

namespace Predictpath

/-- A small concrete transition matrix for the forecaster witnesses. -/
def tmW : List (String × List (String × ℚ)) :=
  [ ("T1078", [("T1021", 9/10), ("T1046", 7/10)]) ]

/-- A session state with a single-host blast radius. -/
def csW : CurrentState :=
  { observed_techniques := ["T1078"], host_scope := ["host42"]
    observed_vulnerabilities := [], graph_depth := 1 }

def predictW : PredictionSummary :=
  predict tmW [] [] (fun s => s) zeroVdb 3 "Activity on host42" csW 0

/-- The top predicted scenario of the concrete run. -/
def scW : PredictedScenario :=
  (predictW.predicted_scenarios.head?).getD
    { sequence := [], probability := 0, min_seconds := 0, max_seconds := 0
      risk_level := "", scenario_type := "", positive_evidence := [] }

end Predictpath

namespace Predictpath

open TrustLedgerSystem

/-! ## Claim C1: ledger hash-chain integrity and tamper detection -/

theorem sortByTs_id (db : List TrustLedgerEntry)
    (h : (db.map (·.timestamp)).Chain' (· < ·)) : sortByTs db = db := by
  induction db with
  | nil => rfl
  | cons e es ih =>
      have htail : (es.map (·.timestamp)).Chain' (· < ·) := by
        simpa using (by simpa using h : ((e :: es).map (·.timestamp)).Chain' (· < ·)).tail
      have hstep : sortByTs (e :: es) = insertByTs e (sortByTs es) := rfl
      rw [hstep, ih htail]
      cases es with
      | nil => rfl
      | cons x xs =>
          have hlt : e.timestamp < x.timestamp := by
            have h2 : ((e :: x :: xs).map (·.timestamp)).Chain' (· < ·) := h
            simp only [List.map_cons, List.chain'_cons] at h2
            exact h2.1
          simp [insertByTs, hlt]

theorem log_event_eq (db : List TrustLedgerEntry) (now : ℕ) (etype : String)
    (payload : Jval) (actor : String) :
    log_event db now etype payload actor =
      db ++ [{ hash_id := _compute_hash (_get_last_hash db) (isoTimestamp now) etype payload actor
               previous_hash := _get_last_hash db, timestamp := now, event_type := etype
               payload := payload, actor := actor }] := rfl

theorem get_last_hash_sorted (db : List TrustLedgerEntry)
    (h : (db.map (·.timestamp)).Chain' (· < ·)) :
    _get_last_hash db = lastHashFrom GENESIS db := by
  unfold _get_last_hash lastHashFrom
  rw [sortByTs_id db h]

theorem chained_append :
    ∀ (db : List TrustLedgerEntry) (p : String) (e : TrustLedgerEntry),
      ChainedFrom p db →
      e.previous_hash = lastHashFrom p db →
      e.hash_id = _compute_hash e.previous_hash (isoTimestamp e.timestamp)
        e.event_type e.payload e.actor →
      ChainedFrom p (db ++ [e])
  | [], p, e, _, hprev, hhash => by
      have hp : e.previous_hash = p := by simpa [lastHashFrom] using hprev
      exact ⟨hp, by rw [hhash, hp], trivial⟩
  | x :: xs, p, e, hch, hprev, hhash => by
      obtain ⟨h1, h2, h3⟩ := hch
      refine ⟨h1, h2, ?_⟩
      refine chained_append xs x.hash_id e h3 ?_ hhash
      cases xs with
      | nil => simpa [lastHashFrom] using hprev
      | cons y ys => simpa [lastHashFrom, List.getLast?_cons_cons] using hprev

theorem buildFrom_inv :
    ∀ (rs : List LedgerRequest) (db : List TrustLedgerEntry),
      ((db.map (·.timestamp) ++ rs.map (·.timestamp)).Chain' (· < ·)) →
      ChainedFrom GENESIS db →
      ChainedFrom GENESIS (buildChainFrom db rs) ∧
      (buildChainFrom db rs).map (·.timestamp) =
        db.map (·.timestamp) ++ rs.map (·.timestamp)
  | [], db, hasc, hch => by
      constructor
      · simpa [buildChainFrom] using hch
      · simp [buildChainFrom]
  | r :: rs, db, hasc, hch => by
      have hpre : (db.map (·.timestamp)).Chain' (· < ·) := hasc.left_of_append
      have hstep : buildChainFrom db (r :: rs) =
          buildChainFrom (log_event db r.timestamp r.event_type r.payload r.actor) rs := rfl
      set er : TrustLedgerEntry :=
        { hash_id := _compute_hash (_get_last_hash db) (isoTimestamp r.timestamp)
            r.event_type r.payload r.actor
          previous_hash := _get_last_hash db, timestamp := r.timestamp
          event_type := r.event_type, payload := r.payload, actor := r.actor } with her
      have hle : log_event db r.timestamp r.event_type r.payload r.actor = db ++ [er] := rfl
      have hch' : ChainedFrom GENESIS (db ++ [er]) := by
        refine chained_append db GENESIS er hch ?_ rfl
        show _get_last_hash db = lastHashFrom GENESIS db
        exact get_last_hash_sorted db hpre
      have hmap' : (db ++ [er]).map (·.timestamp) = db.map (·.timestamp) ++ [r.timestamp] := by
        simp [her]
      have hasc' : (((db ++ [er]).map (·.timestamp)) ++ rs.map (·.timestamp)).Chain' (· < ·) := by
        rw [hmap', List.append_assoc]
        simpa using hasc
      have ih := buildFrom_inv rs (db ++ [er]) hasc' hch'
      rw [hstep, hle]
      refine ⟨ih.1, ?_⟩
      rw [ih.2, hmap', List.append_assoc]
      simp

theorem verifyFrom_of_chained :
    ∀ (db : List TrustLedgerEntry) (p : String),
      ChainedFrom p db → verifyFrom p db = true
  | [], _, _ => rfl
  | e :: es, p, hch => by
      obtain ⟨h1, h2, h3⟩ := hch
      have hstep : verifyFrom p (e :: es) = verifyFrom e.hash_id es := by
        simp [verifyFrom, h1, h2]
      rw [hstep]
      exact verifyFrom_of_chained es e.hash_id h3

theorem verifyFrom_replace_false :
    ∀ (db : List TrustLedgerEntry) (i : ℕ) (p : String) (e' : TrustLedgerEntry),
      ChainedFrom p db → i < db.length →
      (e'.previous_hash ≠ (db.getD i blankEntry).previous_hash ∨
        _compute_hash e'.previous_hash (isoTimestamp e'.timestamp) e'.event_type
          e'.payload e'.actor ≠ e'.hash_id) →
      verifyFrom p (replaceAt db i e') = false
  | [], i, p, e', _, hi, _ => absurd hi (by simp)
  | x :: xs, 0, p, e', hch, hi, hbad => by
      obtain ⟨h1, h2, _⟩ := hch
      show verifyFrom p (e' :: xs) = false
      by_cases hpe : e'.previous_hash = p
      · have hbad' : _compute_hash e'.previous_hash (isoTimestamp e'.timestamp)
            e'.event_type e'.payload e'.actor ≠ e'.hash_id := by
          rcases hbad with hL | hR
          · exact absurd (by simpa using hpe.trans h1.symm) hL
          · exact hR
        have hcond : e'.hash_id ≠ _compute_hash p (isoTimestamp e'.timestamp)
            e'.event_type e'.payload e'.actor := by
          rw [← hpe]
          exact fun h => hbad' h.symm
        simp [verifyFrom, hpe, hcond]
      · simp [verifyFrom, hpe]
  | x :: xs, i+1, p, e', hch, hi, hbad => by
      obtain ⟨h1, h2, h3⟩ := hch
      show verifyFrom p (x :: replaceAt xs i e') = false
      have hstep : verifyFrom p (x :: replaceAt xs i e') =
          verifyFrom x.hash_id (replaceAt xs i e') := by
        simp [verifyFrom, h1, h2]
      rw [hstep]
      exact verifyFrom_replace_false xs i x.hash_id e' h3 (by simpa using hi)
        (by simpa using hbad)

theorem ascTs_iff_chain' :
    ∀ l : List ℕ, ascTs l = true ↔ l.Chain' (· < ·)
  | [] => by simp [ascTs]
  | [a] => by simp [ascTs]
  | a :: b :: rest => by
      simp [ascTs, List.chain'_cons, ascTs_iff_chain' (b :: rest)]

/-- C1.  Ledger hash-chain integrity and tamper detection: a ledger built
solely by `log_event` appends under a strictly increasing clock satisfies
the hash-chain invariant (each `previous_hash` equals the `hash_id` of the
preceding entry, genesis 64 zeros, and each `hash_id` is the SHA-256 of
`previous_hash ‖ timestamp ‖ event_type ‖ sorted-key JSON payload ‖ actor`),
`verify_ledger_integrity` accepts it, and rejects any store in which one
entry's hashed fields were altered afterwards — whenever the alteration
breaks the chain link or makes the recomputed hash differ from the stored one. -/
theorem ledger_chain_integrity_and_tamper
    (rs : List LedgerRequest) (i : ℕ) (e' : TrustLedgerEntry)
    (hasc0 : ascTs (rs.map (·.timestamp)) = true)
    (hi : i < (buildChain rs).length)
    (hasc2x : ascTs ((replaceAt (buildChain rs) i e').map (·.timestamp)) = true)
    (hbad : e'.previous_hash ≠ ((buildChain rs).getD i blankEntry).previous_hash ∨
      _compute_hash e'.previous_hash (isoTimestamp e'.timestamp) e'.event_type
        e'.payload e'.actor ≠ e'.hash_id) :
    ChainedFrom GENESIS (buildChain rs) ∧
    verify_ledger_integrity (buildChain rs) = true ∧
    verify_ledger_integrity (replaceAt (buildChain rs) i e') = false := by
  have hasc : (rs.map (·.timestamp)).Chain' (· < ·) := (ascTs_iff_chain' _).mp hasc0
  have hasc2 : ((replaceAt (buildChain rs) i e').map (·.timestamp)).Chain' (· < ·) :=
    (ascTs_iff_chain' _).mp hasc2x
  obtain ⟨hch, hmap⟩ := buildFrom_inv rs [] (by simpa using hasc) trivial
  have hascDb : ((buildChain rs).map (·.timestamp)).Chain' (· < ·) := by
    rw [show (buildChain rs).map (·.timestamp) = rs.map (·.timestamp) from by
      simpa using hmap]
    exact hasc
  refine ⟨hch, ?_, ?_⟩
  · unfold verify_ledger_integrity
    rw [sortByTs_id _ hascDb]
    exact verifyFrom_of_chained (buildChain rs) GENESIS hch
  · unfold verify_ledger_integrity
    rw [sortByTs_id _ hasc2]
    exact verifyFrom_replace_false (buildChain rs) i GENESIS e' hch hi hbad

end Predictpath

namespace Predictpath

open TrustLedgerSystem

set_option maxRecDepth 40000

/-- C1 witness.  Three entries are appended; then the `actor` field of the
second one is altered in storage.  The original chain verifies; the altered
store is rejected because the recomputed hash of entry 2 no longer matches
its stored `hash_id` (evaluated concretely through the SHA-256 model). -/
theorem ledger_chain_integrity_and_tamper_witness :
    ascTs (rs3.map (·.timestamp)) = true ∧
    1 < (buildChain rs3).length ∧
    ascTs ((replaceAt (buildChain rs3) 1 tamperedEntry1).map (·.timestamp)) = true ∧
    _compute_hash tamperedEntry1.previous_hash (isoTimestamp tamperedEntry1.timestamp)
      tamperedEntry1.event_type tamperedEntry1.payload tamperedEntry1.actor ≠
      tamperedEntry1.hash_id ∧
    verify_ledger_integrity (buildChain rs3) = true ∧
    verify_ledger_integrity (replaceAt (buildChain rs3) 1 tamperedEntry1) = false := by
  have h1 : ascTs (rs3.map (·.timestamp)) = true := by decide
  have h2 : 1 < (buildChain rs3).length := by with_unfolding_all decide
  have h3 : ascTs ((replaceAt (buildChain rs3) 1 tamperedEntry1).map (·.timestamp)) = true := by
    with_unfolding_all decide
  have h4 : _compute_hash tamperedEntry1.previous_hash (isoTimestamp tamperedEntry1.timestamp)
      tamperedEntry1.event_type tamperedEntry1.payload tamperedEntry1.actor ≠
      tamperedEntry1.hash_id := by with_unfolding_all decide
  obtain ⟨-, hv, hf⟩ :=
    ledger_chain_integrity_and_tamper rs3 1 tamperedEntry1 h1 h2 h3 (Or.inr h4)
  exact ⟨h1, h2, h3, h4, hv, hf⟩

/-- C2 (divergence witness).  `process_execution_feedback` is not atomic:
`log_event` issues its own commit before the activation swap is committed.
When the swap's commit fails, the call aborts, the prior configuration is
still the active one — but a ledger entry, three drift samples and the new
(inactive) configuration row are already durable, so the persistent
governance state did change although a write of the bundle failed. -/
theorem feedback_commit_not_atomic :
    c2Run.isOk = false ∧
    (finalStore c2Run).ledger.length = 1 ∧
    (finalStore c2Run).drift.length = 3 ∧
    ((finalStore c2Run).configs.filter (·.is_active)) = [genesisConfig] ∧
    (finalStore c2Run).configs.length = 2 := by
  refine ⟨?_, ?_, ?_, ?_, ?_⟩ <;> with_unfolding_all decide

/-- C4 counterexample.  On spec scenario 5 (two rollbacks, one KEV-tagged,
from the genesis configuration) the claim asserts the persisted
`trust_momentum` drift sample has its alert flag not triggered; in fact the
momentum clamps to −0.35, so |momentum| ≥ 0.25 and the alert fires. -/
theorem adaptive_tightening_no_alert_refuted :
    ¬ ((processFeedbackPure genesisConfig reportTwoRollbacksOneKev "v9b3e2d11" 7).new_config.trust_momentum < 0 ∧
       (6:ℚ)/10 < (processFeedbackPure genesisConfig reportTwoRollbacksOneKev "v9b3e2d11" 7).new_config.containment_threshold ∧
       (processFeedbackPure genesisConfig reportTwoRollbacksOneKev "v9b3e2d11" 7).new_config.failure_streak = 1 ∧
       (processFeedbackPure genesisConfig reportTwoRollbacksOneKev "v9b3e2d11" 7).momentum_sample.alert_triggered = false) := by
  with_unfolding_all decide

/-- C4 (amended).  From the genesis configuration, one report with two
rolled-back/failed actions (one KEV-tagged) gives raw delta
−2 × 0.1 × (1 + 1) = −0.4, which clamps to momentum −0.35 < 0; the
containment threshold rises to 0.95 > 0.6; the failure streak becomes 1;
and the persisted `trust_momentum` drift sample carries value −0.35 with
its alert flag triggered (0.25 ≤ |−0.35|).  After the successful run the
new configuration is the single active one. -/
theorem adaptive_tightening_from_genesis :
    c4Run.isOk = true ∧
    ((finalStore c4Run).configs.filter (·.is_active)).map (·.version_id) = ["v9b3e2d11"] ∧
    ((finalStore c4Run).configs.filter (·.is_active)).map (·.trust_momentum) = [-(35/100)] ∧
    ((finalStore c4Run).configs.filter (·.is_active)).map (·.containment_threshold) = [95/100] ∧
    ((finalStore c4Run).configs.filter (·.is_active)).map (·.failure_streak) = [1] ∧
    (finalStore c4Run).drift.filter (·.metric_name = "trust_momentum") =
      [{ timestamp := 7, metric_name := "trust_momentum", metric_value := -(35/100)
         alert_triggered := true }] := by
  refine ⟨?_, ?_, ?_, ?_, ?_, ?_⟩ <;> with_unfolding_all decide

end Predictpath

namespace Predictpath

set_option maxRecDepth 40000

/-! ## Claims C3, C8, C9 -/

/-- C3 (divergence witness).  The session builder computes the
`session_group_id` gap-split column — which marks two groups for two events
of the same surrogate 7200 s apart, the 60-minute window being 3600 s — but
partitions only by the surrogate-derived `unique_session_id`, so both
events are emitted in one Session whose consecutive gap exceeds the
window. -/
theorem session_gap_split_discarded :
    sessionGroupIds (sortedRows dfGap) = [1, 2] ∧
    sessionTsLists (load_sessions dfGap) = [[0, 7200]] ∧
    (load_sessions dfGap).toOption.map List.length = some 1 := by
  refine ⟨?_, ?_, ?_⟩ <;> with_unfolding_all decide

/-- C8 counterexample.  On a batch lacking the `timestamp` column,
`load_sessions` succeeds with the empty session list — no
MissingRequiredField / input-schema error reaches the caller. -/
theorem missing_timestamp_error_refuted :
    (load_sessions dfNoTs).isOk = true ∧ (load_sessions dfNoTs).toOption = some [] := by
  constructor <;> with_unfolding_all decide

/-- C8 (amended).  When the loaded event batch lacks the mandatory
`timestamp` column, `load_sessions` logs a warning and returns the empty
session list: the batch yields no sessions, but no error is surfaced. -/
theorem missing_timestamp_yields_empty_batch (df : DataFrame)
    (h : df.hasTimestampCol = false) : load_sessions df = Except.ok [] := by
  simp [load_sessions, h]

/-- C8 witness. -/
theorem missing_timestamp_yields_empty_batch_witness :
    dfNoTs.hasTimestampCol = false ∧ load_sessions dfNoTs = Except.ok [] :=
  ⟨rfl, missing_timestamp_yields_empty_batch dfNoTs rfl⟩

/-- Unfolding equation of `enrichEvent` with its local binding reduced. -/
theorem enrichEvent_eq (e : EnrichedEvent) :
    enrichEvent e =
      if e.mitre_technique = none ∨ e.mitre_technique = some "Unknown" ∨
          e.mitre_technique = some "" then
        match ((_discover_vulnerabilities (scanText e)).2).find?
            (fun c => (CWE_TECH_MAP.lookup c).isSome) with
        | some c => { e with mitre_technique := CWE_TECH_MAP.lookup c }
        | none => e
      else e := rfl

/-- C9 counterexample.  The path analyzer's metric computation mutates an
ingested event: an event without a technique whose raw text names CWE-89
comes out of the enrichment pass with `mitre_technique = T1190`. -/
theorem event_immutability_refuted :
    enrichEvents [evNoTech] ≠ [evNoTech] ∧
    (enrichEvents [evNoTech]).map (·.mitre_technique) = [some "T1190"] ∧
    evNoTech.mitre_technique = none := by
  refine ⟨?_, ?_, ?_⟩ <;> with_unfolding_all decide

/-- C9 (amended).  The enrichment pass of `_compute_metrics` can overwrite
only the `mitre_technique` field: restoring that one field recovers the
input event exactly, and an event that already carries a technique (other
than `Unknown` or the empty string) passes through unchanged. -/
theorem enrich_mutates_only_technique (e : EnrichedEvent) :
    { enrichEvent e with mitre_technique := e.mitre_technique } = e ∧
    (e.mitre_technique ≠ none → e.mitre_technique ≠ some "Unknown" →
      e.mitre_technique ≠ some "" → enrichEvent e = e) := by
  constructor
  · by_cases h : e.mitre_technique = none ∨ e.mitre_technique = some "Unknown" ∨
        e.mitre_technique = some ""
    · rcases hfind : ((_discover_vulnerabilities (scanText e)).2).find?
          (fun c => (CWE_TECH_MAP.lookup c).isSome) with _ | c
      · rw [enrichEvent_eq, if_pos h, hfind]
      · rw [enrichEvent_eq, if_pos h, hfind]
    · rw [enrichEvent_eq, if_neg h]
  · intro h1 h2 h3
    rw [enrichEvent_eq, if_neg]
    rintro (h | h | h)
    · exact h1 h
    · exact h2 h
    · exact h3 h

/-- C9 witness. -/
theorem enrich_mutates_only_technique_witness :
    { enrichEvent evWithTech with mitre_technique := evWithTech.mitre_technique } = evWithTech ∧
    enrichEvent evWithTech = evWithTech :=
  ⟨(enrich_mutates_only_technique evWithTech).1,
   (enrich_mutates_only_technique evWithTech).2 (by decide) (by decide) (by decide)⟩

end Predictpath

namespace Predictpath

/-! ## Claim C5: path anomaly score -/

theorem roundHalfEvenR_mem (x : ℝ) :
    Int.floor x ≤ roundHalfEvenR x ∧ roundHalfEvenR x ≤ Int.floor x + 1 := by
  unfold roundHalfEvenR
  split
  · split <;> omega
  · constructor
    · rw [round_eq]
      exact Int.floor_le_floor (by linarith)
    · rw [round_eq]
      have : (x + 1/2 : ℝ) ≤ x + 1 := by linarith
      calc ⌊x + 1/2⌋ ≤ ⌊x + 1⌋ := Int.floor_le_floor this
        _ = ⌊x⌋ + 1 := by rw [show (x + 1 : ℝ) = x + (1:ℤ) from by push_cast; ring,
              Int.floor_add_int]

theorem roundHalfEvenR_nonneg (x : ℝ) (hx : 0 ≤ x) : 0 ≤ roundHalfEvenR x := by
  have h := (roundHalfEvenR_mem x).1
  have : (0:ℤ) ≤ ⌊x⌋ := Int.floor_nonneg.mpr hx
  omega

theorem roundHalfEvenR_le_int (x : ℝ) (m : ℤ) (hx : x ≤ (m:ℝ)) :
    roundHalfEvenR x ≤ m := by
  unfold roundHalfEvenR
  split
  · rename_i hf
    have hxval : x = (⌊x⌋ : ℝ) + 1/2 := by
      have := Int.fract_add_floor x
      rw [hf] at this
      linarith
    have hlt : ((⌊x⌋ : ℤ) : ℝ) < (m : ℝ) := by
      rw [hxval] at hx
      linarith
    have hm : ⌊x⌋ + 1 ≤ m := by exact_mod_cast Int.add_one_le_of_lt (by exact_mod_cast hlt)
    split <;> omega
  · rw [round_eq]
    have h1 : x + 1/2 ≤ (m : ℝ) + 1/2 := by linarith
    have h2 : ⌊x + 1/2⌋ ≤ ⌊(m : ℝ) + 1/2⌋ := Int.floor_le_floor h1
    have h3 : ⌊(m : ℝ) + 1/2⌋ = m := by
      rw [Int.floor_int_add]
      have : ⌊(1:ℝ)/2⌋ = 0 := by
        rw [Int.floor_eq_zero_iff]
        constructor <;> norm_num
      omega
    omega

end Predictpath

namespace Predictpath

theorem pyRoundR_two_bounds (x : ℝ) (h0 : 0 ≤ x) (h1 : x ≤ 100) :
    0 ≤ pyRoundR x 2 ∧ pyRoundR x 2 ≤ 100 := by
  unfold pyRoundR
  have hp : (10:ℝ) ^ 2 = 100 := by norm_num
  rw [hp]
  have hlo : 0 ≤ roundHalfEvenR (x * 100) := roundHalfEvenR_nonneg _ (by linarith)
  have hhi : roundHalfEvenR (x * 100) ≤ 10000 :=
    roundHalfEvenR_le_int _ 10000 (by push_cast; linarith)
  constructor
  · positivity
  · rw [div_le_iff₀ (by norm_num : (0:ℝ) < 100)]
    calc (roundHalfEvenR (x * 100) : ℝ) ≤ 10000 := by exact_mod_cast hhi
      _ = 100 * 100 := by norm_num

/-- C5.  Path anomaly score: for every non-empty session the stored
`path_anomaly_score` equals the claim's formula — diversity
`min(techniques × 10, 70)` plus volume `min(log10(events + 1) × 10, 30)`,
escalated only when the base exceeds zero by ×1.5 capped at 100 under KEV,
else ×1.25 capped at 95 under CVSS ≥ 9 — rounded to two decimals as the
report stores it, the base is strictly positive, and the resulting score
lies in [0, 100]. -/
theorem path_anomaly_score_formula_and_bounds
    (t n kev : ℕ) (cvss : ℝ) (hn : 1 ≤ n) :
    path_anomaly_score t n kev cvss = pyRoundR (claimScoreC5 t n kev cvss) 2 ∧
    0 < diversity_score t + volume_score n ∧
    0 ≤ path_anomaly_score t n kev cvss ∧
    path_anomaly_score t n kev cvss ≤ 100 := by
  have hlogpos : 0 < Real.logb 10 ((n:ℝ) + 1) := by
    refine Real.logb_pos (by norm_num) ?_
    have : (1:ℝ) ≤ (n:ℝ) := by exact_mod_cast hn
    linarith
  have hv_pos : 0 < volume_score n := by
    unfold volume_score
    have hcast : ((n:ℝ) + 1) = (↑(n + 1) : ℝ) := by push_cast; ring
    refine lt_min ?_ (by norm_num)
    rw [← hcast] at *
    nlinarith
  have hv_le : volume_score n ≤ 30 := min_le_right _ _
  have hd_nonneg : 0 ≤ diversity_score t := le_min (by positivity) (by norm_num)
  have hd_le : diversity_score t ≤ 70 := min_le_right _ _
  have hbase_pos : 0 < diversity_score t + volume_score n := by linarith
  have hbase_le : diversity_score t + volume_score n ≤ 100 := by linarith
  have hesc_nonneg : 0 ≤ escalated_score (diversity_score t + volume_score n) kev cvss := by
    unfold escalated_score
    split
    · exact le_min (by nlinarith) (by norm_num)
    · split
      · exact le_min (by nlinarith) (by norm_num)
      · linarith
  have hesc_le : escalated_score (diversity_score t + volume_score n) kev cvss ≤ 100 := by
    unfold escalated_score
    split
    · exact min_le_right _ _
    · split
      · exact le_trans (min_le_right _ _) (by norm_num)
      · linarith
  have hmin : min (escalated_score (diversity_score t + volume_score n) kev cvss) 100 =
      escalated_score (diversity_score t + volume_score n) kev cvss := min_eq_left hesc_le
  have hclaim : claimScoreC5 t n kev cvss =
      escalated_score (diversity_score t + volume_score n) kev cvss := by
    unfold claimScoreC5
    rw [if_pos hbase_pos]
  have hpath : path_anomaly_score t n kev cvss =
      pyRoundR (escalated_score (diversity_score t + volume_score n) kev cvss) 2 := by
    unfold path_anomaly_score
    rw [hmin]
  have hbounds := pyRoundR_two_bounds _ hesc_nonneg hesc_le
  refine ⟨?_, hbase_pos, ?_, ?_⟩
  · rw [hpath, hclaim]
  · rw [hpath]; exact hbounds.1
  · rw [hpath]; exact hbounds.2

/-- C5 witness. -/
theorem path_anomaly_score_formula_and_bounds_witness :
    1 ≤ 3 ∧
    (path_anomaly_score 2 3 1 0 = pyRoundR (claimScoreC5 2 3 1 0) 2 ∧
     0 < diversity_score 2 + volume_score 3 ∧
     0 ≤ path_anomaly_score 2 3 1 0 ∧
     path_anomaly_score 2 3 1 0 ≤ 100) :=
  ⟨by norm_num, path_anomaly_score_formula_and_bounds 2 3 1 0 (by norm_num)⟩

end Predictpath

namespace Predictpath

/-! ## Claim C6: ResponseDecision structural invariant -/

theorem evalStrategies_rejections (dc : ℚ) (iu : Bool) (ep : ℚ) :
    ∀ (strategies : List String) (acc : List RejectedAction),
      (∀ r ∈ acc, r.rejection_reasons ≠ []) →
      ∀ r ∈ (evalStrategies dc iu ep acc strategies).2, r.rejection_reasons ≠ []
  | [], acc, hacc => by simpa [evalStrategies] using hacc
  | strat :: rest, acc, hacc => by
      simp only [evalStrategies]
      split
      · simpa using hacc
      · rename_i hne
        refine evalStrategies_rejections dc iu ep rest _ ?_
        intro r hr
        rcases List.mem_append.mp hr with h | h
        · exact hacc r h
        · have hr2 := List.mem_singleton.mp h
          subst hr2
          simpa using hne

theorem evalScenarios_rejections (dc : ℚ) (iu : Bool) (n : ℕ) :
    ∀ (scs : List ScenarioIn) (acc : List RejectedAction),
      (∀ r ∈ acc, r.rejection_reasons ≠ []) →
      ∀ r ∈ (evalScenarios dc iu n acc scs).2, r.rejection_reasons ≠ []
  | [], acc, hacc => by simpa [evalScenarios] using hacc
  | sc :: rest, acc, hacc => by
      simp only [evalScenarios]
      cases hseq : sc.sequence with
      | nil => exact evalScenarios_rejections dc iu n rest acc hacc
      | cons t ts =>
          have hstr := evalStrategies_rejections dc iu
            (sc.probability * (1 + ((n : ℚ) - 1) * (1/10)))
            ((TECHNIQUE_RESPONSE_MAP.lookup t).getD ["Monitor User Behavior"]) acc hacc
          rcases hes : evalStrategies dc iu
              (sc.probability * (1 + ((n : ℚ) - 1) * (1/10))) acc
              ((TECHNIQUE_RESPONSE_MAP.lookup t).getD ["Monitor User Behavior"])
            with ⟨sel, rej⟩
          rw [hes] at hstr
          dsimp only
          rw [hes]
          cases sel with
          | some p =>
              intro r hr
              exact hstr r (by simpa using hr)
          | none =>
              intro r hr
              exact evalScenarios_rejections dc iu n rest rej
                (fun x hx => hstr x hx) r (by simpa using hr)

theorem classifyAction_disruptive (name : String) (kev : Bool) (dc : ℚ)
    (h : isDisruptiveName name = true) : (classifyAction name kev dc).2 = true := by
  unfold classifyAction
  simp only [h, if_true]
  split
  · rfl
  · split
    · rename_i hc
      exfalso
      rcases hc with ⟨-, hc2⟩
      exact absurd hc2 (by decide)
    · rfl

/-- C6.  Every `ResponseDecision` emitted by `evaluate_session` has a
non-empty `recommended_actions` list, every rejected action carries at
least one rejection reason, and any recommended action whose name contains
Block, Isolate, Disable, Reset or Terminate has `requires_approval = true`
(so in particular the disjunction of the claim holds). -/
theorem response_decision_invariant (vdb : String → VulnRec) (fd : ForecastIn)
    (ctx : CorrelationCtx) (d : ResponseDecision)
    (h : evaluate_session vdb fd ctx = .ok d) :
    d.recommended_actions ≠ [] ∧
    (∀ r ∈ d.rejected_actions, r.rejection_reasons ≠ []) ∧
    (∀ a ∈ d.recommended_actions, isDisruptiveName a.action_type = true →
      a.requires_approval = true ∨ (a.is_kev = true ∧ a.action_class = "Containment")) := by
  simp only [evaluate_session] at h
  split at h
  · rename_i hnone
    cases h
    refine ⟨by simp [build_monitor_only], by simp [build_monitor_only], ?_⟩
    simp only [build_monitor_only, List.mem_singleton]
    rintro a rfl
    dsimp only
    decide
  · rename_i psc hsome
    split at h
    · cases h
    · rename_i tt tts hseq
      cases h
      refine ⟨by simp, ?_, ?_⟩
      · intro r hr
        simp only at hr
        exact evalScenarios_rejections _ _ _ fd.predicted_scenarios [] (by simp) r hr
      · intro a ha hdis
        simp only [List.mem_singleton] at ha
        subst ha
        simp only at hdis
        exact Or.inl (classifyAction_disruptive _ _ _ hdis)

end Predictpath

namespace Predictpath

/-- C6 witness: a concrete successful evaluation, with the invariant
obtained from the theorem. -/
theorem response_decision_invariant_witness :
    c6Run = Except.ok c6Dec ∧
    (c6Dec.recommended_actions ≠ [] ∧
     (∀ r ∈ c6Dec.rejected_actions, r.rejection_reasons ≠ []) ∧
     (∀ a ∈ c6Dec.recommended_actions, isDisruptiveName a.action_type = true →
        a.requires_approval = true ∨ (a.is_kev = true ∧ a.action_class = "Containment"))) := by
  have h : c6Run = Except.ok c6Dec := by with_unfolding_all rfl
  exact ⟨h, response_decision_invariant zeroVdb fdC6 ctxC6 c6Dec h⟩

end Predictpath

namespace Predictpath

/-! ## Claims C7 and C10: BFS invariants -/

theorem roundHalfEven_mem (q : ℚ) :
    Int.floor q ≤ roundHalfEven q ∧ roundHalfEven q ≤ Int.floor q + 1 := by
  unfold roundHalfEven
  split
  · split <;> omega
  · constructor
    · rw [round_eq]
      exact Int.floor_le_floor (by linarith)
    · rw [round_eq]
      have h : (q + 1/2 : ℚ) ≤ q + 1 := by linarith
      calc ⌊q + 1/2⌋ ≤ ⌊q + 1⌋ := Int.floor_le_floor h
        _ = ⌊q⌋ + 1 := by
            rw [show (q + 1 : ℚ) = q + (1:ℤ) from by push_cast; ring, Int.floor_add_int]

theorem roundHalfEven_ge_int (q : ℚ) (m : ℤ) (h : (m:ℚ) ≤ q) :
    m ≤ roundHalfEven q := by
  have h1 := (roundHalfEven_mem q).1
  have h2 : m ≤ ⌊q⌋ := Int.le_floor.mpr h
  omega

theorem roundHalfEven_le_int (q : ℚ) (m : ℤ) (hx : q ≤ (m:ℚ)) :
    roundHalfEven q ≤ m := by
  unfold roundHalfEven
  split
  · rename_i hf
    have hxval : q = (⌊q⌋ : ℚ) + 1/2 := by
      have := Int.fract_add_floor q
      rw [hf] at this
      linarith
    have hlt : ((⌊q⌋ : ℤ) : ℚ) < (m : ℚ) := by
      rw [hxval] at hx
      linarith
    have hm : ⌊q⌋ + 1 ≤ m := Int.add_one_le_of_lt (by exact_mod_cast hlt)
    split <;> omega
  · rw [round_eq]
    have h1 : q + 1/2 ≤ (m : ℚ) + 1/2 := by linarith
    have h2 : ⌊q + 1/2⌋ ≤ ⌊(m : ℚ) + 1/2⌋ := Int.floor_le_floor h1
    have h3 : ⌊(m : ℚ) + 1/2⌋ = m := by
      rw [Int.floor_int_add]
      have h4 : ⌊(1:ℚ)/2⌋ = 0 := by
        rw [Int.floor_eq_zero_iff]
        constructor <;> norm_num
      omega
    omega

theorem pyRound_three_bounds (q : ℚ) (h1 : 1/10 ≤ q) (h2 : q ≤ 1) :
    1/10 ≤ pyRound q 3 ∧ pyRound q 3 ≤ 1 := by
  unfold pyRound
  have hp : (10:ℚ) ^ 3 = 1000 := by norm_num
  rw [hp]
  have hlo : (100:ℤ) ≤ roundHalfEven (q * 1000) :=
    roundHalfEven_ge_int _ 100 (by push_cast; linarith)
  have hhi : roundHalfEven (q * 1000) ≤ 1000 :=
    roundHalfEven_le_int _ 1000 (by push_cast; linarith)
  constructor
  · rw [le_div_iff₀ (by norm_num : (0:ℚ) < 1000)]
    calc (1:ℚ)/10 * 1000 = 100 := by norm_num
      _ ≤ (roundHalfEven (q * 1000) : ℚ) := by exact_mod_cast hlo
  · rw [div_le_iff₀ (by norm_num : (0:ℚ) < 1000)]
    calc (roundHalfEven (q * 1000) : ℚ) ≤ 1000 := by exact_mod_cast hhi
      _ = 1 * 1000 := by norm_num

theorem build_scenario_sequence (tn : String → String) (seq : List String)
    (p a b : ℚ) (st : CurrentState) (vd : List VulnRec) :
    (_build_scenario tn seq p a b st vd).sequence = seq := rfl

theorem build_scenario_prob_bounds (tn : String → String) (seq : List String)
    (p a b : ℚ) (st : CurrentState) (vd : List VulnRec) (hp : 1/10 ≤ p) :
    1/10 ≤ (_build_scenario tn seq p a b st vd).probability ∧
    (_build_scenario tn seq p a b st vd).probability ≤ 1 := by
  have hmin1 : 1/10 ≤ qmin p 1 := by
    unfold qmin
    split
    · exact hp
    · norm_num
  have hmin2 : qmin p 1 ≤ 1 := by
    unfold qmin
    split
    · assumption
    · exact le_refl 1
  exact pyRound_three_bounds _ hmin1 hmin2

theorem mem_insertLe {α : Type} (le : α → α → Bool) (x : α) :
    ∀ (l : List α) (y : α), y ∈ insertLe le x l → y = x ∨ y ∈ l
  | [], y, h => Or.inl (by simpa [insertLe] using h)
  | z :: zs, y, h => by
      unfold insertLe at h
      split at h
      · rcases List.mem_cons.mp h with h | h
        · right; exact h ▸ List.mem_cons_self z zs
        · rcases mem_insertLe le x zs y h with h | h
          · left; exact h
          · right; exact List.mem_cons_of_mem z h
      · rcases List.mem_cons.mp h with h | h
        · left; exact h
        · right; exact h

theorem mem_isortLe {α : Type} (le : α → α → Bool) :
    ∀ (l acc : List α) (y : α), y ∈ l.foldl (fun a x => insertLe le x a) acc →
      y ∈ acc ∨ y ∈ l
  | [], acc, y, h => Or.inl h
  | z :: zs, acc, y, h => by
      rcases mem_isortLe le zs (insertLe le z acc) y h with h | h
      · rcases mem_insertLe le z acc y h with h | h
        · right; exact h ▸ List.mem_cons_self z zs
        · left; exact h
      · right; exact List.mem_cons_of_mem z h

theorem mem_sortScenariosDesc (l : List PredictedScenario) (y : PredictedScenario)
    (h : y ∈ sortScenariosDesc l) : y ∈ l := by
  unfold sortScenariosDesc isortLe at h
  rcases mem_isortLe _ l [] y h with h | h
  · simp at h
  · exact h

theorem mem_assignTypes :
    ∀ (l : List PredictedScenario) (i : ℕ) (y : PredictedScenario),
      y ∈ assignTypes i l →
      ∃ s ∈ l, y.sequence = s.sequence ∧ y.probability = s.probability
  | [], i, y, h => by simpa [assignTypes] using h
  | s :: rest, i, y, h => by
      unfold assignTypes at h
      rcases List.mem_cons.mp h with h | h
      · exact ⟨s, List.mem_cons_self s rest, by rw [h], by rw [h]⟩
      · rcases mem_assignTypes rest (i + 1) y h with ⟨s2, hs2, hseq, hprob⟩
        exact ⟨s2, List.mem_cons_of_mem s hs2, hseq, hprob⟩

theorem mem_upsertScenario (m : List (String × PredictedScenario))
    (sc : PredictedScenario) (p : String × PredictedScenario)
    (h : p ∈ upsertScenario m sc) : p.2 = sc ∨ p ∈ m := by
  simp only [upsertScenario] at h
  split at h
  · rcases List.mem_append.mp h with h | h
    · right; exact h
    · left; rw [List.mem_singleton.mp h]
  · split at h
    · rcases List.mem_map.mp h with ⟨q, hq, hqe⟩
      by_cases hkey : q.1 = String.intercalate "->" sc.sequence
      · rw [if_pos hkey] at hqe
        left; rw [← hqe]
      · rw [if_neg hkey] at hqe
        right; exact hqe ▸ hq
    · right; exact h

theorem mem_dedupScenarios :
    ∀ (l : List PredictedScenario) (acc : List (String × PredictedScenario))
      (p : String × PredictedScenario), p ∈ l.foldl upsertScenario acc →
      p.2 ∈ l ∨ p ∈ acc
  | [], acc, p, h => Or.inr h
  | sc :: rest, acc, p, h => by
      rcases mem_dedupScenarios rest (upsertScenario acc sc) p h with h | h
      · left; exact List.mem_cons_of_mem sc h
      · rcases mem_upsertScenario acc sc p h with h | h
        · left; exact h ▸ List.mem_cons_self sc rest
        · right; exact h

end Predictpath

namespace Predictpath

theorem mem_of_take {α : Type} :
    ∀ (n : ℕ) (l : List α) (y : α), y ∈ l.take n → y ∈ l
  | 0, l, y, h => by simp at h
  | n+1, [], y, h => by simp at h
  | n+1, z :: zs, y, h => by
      rcases List.mem_cons.mp (by simpa using h) with h | h
      · exact h ▸ List.mem_cons_self z zs
      · exact List.mem_cons_of_mem z (mem_of_take n zs y h)

theorem mem_foldr_append {α β : Type} (f : α → List β) :
    ∀ (l : List α) (y : β), y ∈ l.foldr (fun a acc => f a ++ acc) [] →
      ∃ a ∈ l, y ∈ f a
  | [], y, h => by simp at h
  | a :: rest, y, h => by
      rcases List.mem_append.mp (by simpa using h) with h | h
      · exact ⟨a, List.mem_cons_self a rest, h⟩
      · rcases mem_foldr_append f rest y h with ⟨b, hb, hy⟩
        exact ⟨b, List.mem_cons_of_mem a hb, hy⟩

theorem transModifier_T1021 (a : List String) (k : Bool) (state : CurrentState)
    (h2 : state.host_scope.length < 2) :
    transModifier a k state "T1021" = 0 := by
  simp only [transModifier]
  rw [if_neg, if_pos ⟨trivial, h2⟩]
  rintro ⟨h, -⟩
  exact absurd h (by decide)

theorem expand_prob (a : List String) (k : Bool) (state : CurrentState)
    (tp : List (String × (ℚ × ℚ))) (st : BfsState) :
    ∀ (trans : List (String × ℚ)) (visited : List String) (e : BfsState),
      e ∈ (expandTransitions a k state tp st trans visited).1 → 1/10 ≤ e.prob
  | [], visited, e, h => by simp [expandTransitions] at h
  | (next, tpb) :: rest, visited, e, h => by
      simp only [expandTransitions] at h
      split at h
      · exact expand_prob a k state tp st rest visited e h
      · rename_i hge
        split at h
        · exact expand_prob a k state tp st rest visited e h
        · rcases List.mem_cons.mp h with h | h
          · rw [h]
            exact not_lt.mp hge
          · exact expand_prob a k state tp st rest _ e h

theorem expand_path (a : List String) (k : Bool) (state : CurrentState)
    (tp : List (String × (ℚ × ℚ))) (st : BfsState)
    (h2 : state.host_scope.length < 2) (hst : "T1021" ∉ st.path) :
    ∀ (trans : List (String × ℚ)) (visited : List String) (e : BfsState),
      e ∈ (expandTransitions a k state tp st trans visited).1 → "T1021" ∉ e.path
  | [], visited, e, h => by simp [expandTransitions] at h
  | (next, tpb) :: rest, visited, e, h => by
      simp only [expandTransitions] at h
      split at h
      · exact expand_path a k state tp st h2 hst rest visited e h
      · rename_i hge
        split at h
        · exact expand_path a k state tp st h2 hst rest visited e h
        · rcases List.mem_cons.mp h with h | h
          · rw [h]
            show "T1021" ∉ st.path ++ [next]
            by_cases hnt : next = "T1021"
            · exfalso
              apply hge
              rw [hnt, transModifier_T1021 a k state h2, mul_zero]
              norm_num
            · intro hmem
              rcases List.mem_append.mp hmem with hmem | hmem
              · exact hst hmem
              · exact hnt (List.mem_singleton.mp hmem).symm
          · exact expand_path a k state tp st h2 hst rest _ e h

theorem bfsLoop_all (tm : List (String × List (String × ℚ)))
    (tp : List (String × (ℚ × ℚ))) (tn : String → String) (state : CurrentState)
    (vuln_data : List VulnRec) (all_cwes : List String) (kevPresent : Bool)
    (max_depth : ℕ) (Pq : BfsState → Prop) (Qs : PredictedScenario → Prop)
    (hbuild : ∀ st : BfsState, Pq st →
      Qs (_build_scenario tn st.path st.prob st.tMin st.tMax state vuln_data))
    (hexp : ∀ (st : BfsState) (trans : List (String × ℚ)) (visited : List String)
      (e : BfsState), Pq st →
      e ∈ (expandTransitions all_cwes kevPresent state tp st trans visited).1 → Pq e) :
    ∀ (fuel : ℕ) (queue : List BfsState) (visited : List String)
      (scenarios : List PredictedScenario),
      (∀ st ∈ queue, Pq st) → (∀ sc ∈ scenarios, Qs sc) →
      ∀ sc ∈ bfsLoop tm tp tn state vuln_data all_cwes kevPresent max_depth
        fuel queue visited scenarios, Qs sc
  | 0, queue, visited, scenarios, _, hsc => by
      simpa [bfsLoop] using hsc
  | fuel+1, [], visited, scenarios, _, hsc => by
      simpa [bfsLoop] using hsc
  | fuel+1, st :: rest, visited, scenarios, hq, hsc => by
      have hsc2 : ∀ sc ∈ (if st.path ≠ [] then
          scenarios ++ [_build_scenario tn st.path st.prob st.tMin st.tMax state vuln_data]
          else scenarios), Qs sc := by
        split
        · intro sc hmem
          rcases List.mem_append.mp hmem with hmem | hmem
          · exact hsc sc hmem
          · rw [List.mem_singleton.mp hmem]
            exact hbuild st (hq st (List.mem_cons_self st rest))
        · exact hsc
      simp only [bfsLoop]
      split
      · exact bfsLoop_all tm tp tn state vuln_data all_cwes kevPresent max_depth
          Pq Qs hbuild hexp fuel rest visited _
          (fun x hx => hq x (List.mem_cons_of_mem st hx)) hsc2
      · refine bfsLoop_all tm tp tn state vuln_data all_cwes kevPresent max_depth
          Pq Qs hbuild hexp fuel _ _ _ ?_ hsc2
        intro x hx
        rcases List.mem_append.mp hx with hx | hx
        · exact hq x (List.mem_cons_of_mem st hx)
        · exact hexp st _ _ x (hq st (List.mem_cons_self st rest)) hx

theorem traversal_all (tm : List (String × List (String × ℚ)))
    (tp : List (String × (ℚ × ℚ))) (tn : String → String) (fuel : ℕ)
    (seed : String) (state : CurrentState) (vuln_data : List VulnRec)
    (max_depth : ℕ) (Pq : BfsState → Prop) (Qs : PredictedScenario → Prop)
    (hQtrans : ∀ x y : PredictedScenario, x.sequence = y.sequence →
      x.probability = y.probability → Qs y → Qs x)
    (hbuild : ∀ st : BfsState, Pq st →
      Qs (_build_scenario tn st.path st.prob st.tMin st.tMax state vuln_data))
    (hexp : ∀ (st : BfsState) (trans : List (String × ℚ)) (visited : List String)
      (e : BfsState), Pq st →
      e ∈ (expandTransitions (vuln_data.foldr (fun v acc => v.cwe_ids ++ acc) [])
        (vuln_data.any (·.is_kev)) state tp st trans visited).1 → Pq e)
    (hseed : Pq { curr := seed, path := [], prob := 1, tMin := 0, tMax := 0 }) :
    ∀ sc ∈ _bfs_probabilistic_traversal tm tp tn fuel seed state vuln_data max_depth,
      Qs sc := by
  intro sc h
  simp only [_bfs_probabilistic_traversal] at h
  rcases mem_assignTypes _ 0 sc h with ⟨s1, hs1, hseq, hprob⟩
  have hs2 := mem_sortScenariosDesc _ s1 (mem_of_take 5 _ s1 hs1)
  have hQ1 : Qs s1 := by
    refine bfsLoop_all tm tp tn state vuln_data _ _ max_depth Pq Qs hbuild hexp
      fuel _ [] [] ?_ (by simp) s1 hs2
    intro x hx
    rw [List.mem_singleton.mp hx]
    exact hseed
  exact hQtrans sc s1 hseq hprob hQ1

theorem predict_all (tm : List (String × List (String × ℚ)))
    (tp : List (String × (ℚ × ℚ))) (prereqs : List (String × List String))
    (tn : String → String) (vdb : String → VulnRec) (fuel : ℕ) (sid : String)
    (cs : CurrentState) (risk : ℚ) (Pq : BfsState → Prop)
    (Qs : PredictedScenario → Prop)
    (hQtrans : ∀ x y : PredictedScenario, x.sequence = y.sequence →
      x.probability = y.probability → Qs y → Qs x)
    (hbuild : ∀ st : BfsState, Pq st →
      Qs (_build_scenario tn st.path st.prob st.tMin st.tMax cs
        ((dedupFirst cs.observed_vulnerabilities).map vdb)))
    (hexp : ∀ (st : BfsState) (trans : List (String × ℚ)) (visited : List String)
      (e : BfsState), Pq st →
      e ∈ (expandTransitions
        (((dedupFirst cs.observed_vulnerabilities).map vdb).foldr
          (fun v acc => v.cwe_ids ++ acc) [])
        (((dedupFirst cs.observed_vulnerabilities).map vdb).any (·.is_kev))
        cs tp st trans visited).1 → Pq e)
    (hseed : ∀ seed : String,
      Pq { curr := seed, path := [], prob := 1, tMin := 0, tMax := 0 }) :
    ∀ sc ∈ (predict tm tp prereqs tn vdb fuel sid cs risk).predicted_scenarios,
      Qs sc := by
  intro sc h
  simp only [predict] at h
  rcases mem_assignTypes _ 0 sc h with ⟨s1, hs1, hseq, hprob⟩
  have hs2 := mem_sortScenariosDesc _ s1 (mem_of_take 5 _ s1 hs1)
  rcases List.mem_map.mp hs2 with ⟨p, hp, hps⟩
  rcases mem_dedupScenarios _ [] p hp with hp2 | hp2
  swap
  · simp at hp2
  rcases mem_foldr_append _ _ p.2 hp2 with ⟨seed, hseedmem, hmem⟩
  have hQ1 : Qs p.2 :=
    traversal_all tm tp tn fuel seed cs _ 3 Pq Qs hQtrans hbuild hexp (hseed seed)
      p.2 hmem
  exact hQtrans sc s1 hseq hprob (hps ▸ hQ1)

end Predictpath

namespace Predictpath

set_option maxRecDepth 100000

/-- C7.  Lateral-movement pruning: when the blast radius holds fewer than
two hosts, the transition modifier for `T1021` is zero, every such
expansion falls below the 0.1 pruning threshold, and no predicted
scenario of `TrajectoryEngine.predict` contains `T1021` — for every
transition matrix, time-prior table, prerequisite table, technique-name
map, catalog and fuel. -/
theorem forecast_prunes_lateral_movement (tm : List (String × List (String × ℚ)))
    (tp : List (String × (ℚ × ℚ))) (prereqs : List (String × List String))
    (tn : String → String) (vdb : String → VulnRec) (fuel : ℕ) (sid : String)
    (cs : CurrentState) (risk : ℚ) (h : cs.host_scope.length < 2) :
    ∀ sc ∈ (predict tm tp prereqs tn vdb fuel sid cs risk).predicted_scenarios,
      "T1021" ∉ sc.sequence := by
  refine predict_all tm tp prereqs tn vdb fuel sid cs risk
    (fun st => "T1021" ∉ st.path) (fun sc => "T1021" ∉ sc.sequence)
    ?_ ?_ ?_ ?_
  · intro x y hseq _ hy
    rw [hseq]
    exact hy
  · intro st hst
    rw [build_scenario_sequence]
    exact hst
  · intro st trans visited e hst hmem
    exact expand_path _ _ cs tp st h hst trans visited e hmem
  · intro seed
    simp

/-- C10.  Scenario-probability floor: every scenario emitted by
`TrajectoryEngine.predict` has probability in [0.1, 1.0] — every enqueued
path carried cumulative probability at least the 0.1 pruning threshold,
and the emitted value is clamped to 1.0 before rounding — for every
transition matrix, time-prior table, prerequisite table, technique-name
map, catalog and fuel. -/
theorem scenario_probability_floor (tm : List (String × List (String × ℚ)))
    (tp : List (String × (ℚ × ℚ))) (prereqs : List (String × List String))
    (tn : String → String) (vdb : String → VulnRec) (fuel : ℕ) (sid : String)
    (cs : CurrentState) (risk : ℚ) :
    ∀ sc ∈ (predict tm tp prereqs tn vdb fuel sid cs risk).predicted_scenarios,
      1/10 ≤ sc.probability ∧ sc.probability ≤ 1 := by
  refine predict_all tm tp prereqs tn vdb fuel sid cs risk
    (fun st => 1/10 ≤ st.prob) (fun sc => 1/10 ≤ sc.probability ∧ sc.probability ≤ 1)
    ?_ ?_ ?_ ?_
  · intro x y _ hprob hy
    rw [hprob]
    exact hy
  · intro st hst
    exact build_scenario_prob_bounds _ _ _ _ _ _ _ hst
  · intro st trans visited e _ hmem
    exact expand_prob _ _ cs tp st trans visited e hmem
  · intro seed
    norm_num

theorem headD_mem {α : Type} (l : List α) (d : α) (h : l ≠ []) :
    (l.head?).getD d ∈ l := by
  cases l with
  | nil => exact absurd rfl h
  | cons x xs => simp

/-- C7 witness: a concrete single-host session whose forecast is non-empty
and whose top scenario avoids `T1021`. -/
theorem forecast_prunes_lateral_movement_witness :
    csW.host_scope.length < 2 ∧
    scW ∈ predictW.predicted_scenarios ∧
    "T1021" ∉ scW.sequence := by
  have h1 : csW.host_scope.length < 2 := by decide
  have hlen : predictW.predicted_scenarios.length = 1 := by with_unfolding_all decide
  have h2 : scW ∈ predictW.predicted_scenarios :=
    headD_mem _ _ (by intro h0; rw [h0] at hlen; simp at hlen)
  exact ⟨h1, h2, forecast_prunes_lateral_movement tmW [] [] (fun s => s) zeroVdb 3
    "Activity on host42" csW 0 h1 scW h2⟩

/-- C10 witness: the same concrete forecast's top scenario, with its
probability bounds obtained from the theorem. -/
theorem scenario_probability_floor_witness :
    scW ∈ predictW.predicted_scenarios ∧
    (1/10 ≤ scW.probability ∧ scW.probability ≤ 1) := by
  have hlen : predictW.predicted_scenarios.length = 1 := by with_unfolding_all decide
  have h2 : scW ∈ predictW.predicted_scenarios :=
    headD_mem _ _ (by intro h0; rw [h0] at hlen; simp at hlen)
  exact ⟨h2, scenario_probability_floor tmW [] [] (fun s => s) zeroVdb 3
    "Activity on host42" csW 0 scW h2⟩

end Predictpath
